import Mathlib

/-!
Carla: housekeeping thread and signal-containment guards.

A shallow embedding of

* `CarlaEngineThread::run` (`source/backend/engine/CarlaEngineThread.cpp`): the body of the
  housekeeping loop, as the ordered list of calls one iteration makes on a snapshot of the
  engine and of its plugins;
* `ScopedAbortCatcher` and `CarlaSignalRestorer` (`source/utils/CarlaProcessUtils.cpp`), as state
  transformers on the process-wide signal state.

Modelling conventions for the thread:

* the engine and the plugins are external collaborators; one iteration is modelled on a snapshot
  (what each getter answers during that iteration), and the behaviour of the iteration is the list
  of calls it makes, in program order;
* `uint`/`uint32_t` counters are `Nat`; they are only compared and incremented below a bound of
  their own type, so they never wrap. The one narrowing conversion of the source,
  `static_cast<int32_t>(j)`, is modelled explicitly;
* `float` values are never computed with, only copied, so the value type is a parameter `V`;
* `BUILD_BRIDGE` (a compile-time switch) is a `Bool` parameter, `PLUGIN_NEEDS_SINGLE_THREAD`
  (a constant of `CarlaBackend.h`) is a `Nat` parameter;
* the assertion macros of `CarlaDefines.h` are modelled by `CARLA_SAFE_ASSERT_CONTINUE` and
  `CARLA_SAFE_ASSERT_UINT2` below; their logs appear in the list of calls.

Modelling conventions for the guards:

* `ScopedAbortCatcher` acts on its two static members and on the handler installed for each
  signal number; `setjmp`/`longjmp` are modelled by resuming the constructor at the point where
  `setjmp` returns;
* `CarlaSignalRestorer` acts on the table of dispositions of the process through `sigaction(2)`,
  which refuses invalid signal numbers and changes to `SIGKILL`/`SIGSTOP`.
-/

namespace Carla

/-! ## Data model of the housekeeping thread -/

/-- Snapshot of what a `CarlaPlugin` answers to the getters used by the thread. -/
structure CarlaPlugin (V : Type) where
  isEnabled : Bool
  getId : Nat
  getHints : Nat
  getParameterCount : Nat
  isParameterOutput : Nat → Bool
  getParameterValue : Nat → V

/-- Snapshot of what the `CarlaEngine` answers during one iteration. `getPluginUnchecked i` is
`none` for a null handle. -/
structure CarlaEngine (V : Type) where
  isOscBridgeRegistered : Bool
  isOscControlRegistered : Bool
  getCurrentPluginCount : Nat
  getPluginUnchecked : Nat → Option (CarlaPlugin V)

/-- Calls made by one iteration of `CarlaEngineThread::run`. Calls made on the plugin of a slot,
or while processing a slot, carry the loop index `i` of that slot as first field; for
`oscSend_bridge_parameter_value` and the two assertion logs that index is not an argument of the
call itself. -/
inductive Call (V : Type) where
  | isOscBridgeRegistered
  | isOscControlRegistered
  | getCurrentPluginCount
  | getPluginUnchecked (i : Nat)
  | isEnabled (i : Nat)
  | carla_safe_assert (i : Nat)
  | getId (i : Nat)
  | carla_safe_assert_uint2 (i : Nat) (v1 v2 : Nat)
  | getHints (i : Nat)
  | postRtEventsRun (i : Nat)
  | getParameterCount (i : Nat)
  | isParameterOutput (i j : Nat)
  | getParameterValue (i j : Nat)
  | uiParameterChange (i j : Nat) (value : V)
  | oscSend_bridge_parameter_value (i j : Nat) (value : V)
  | oscSend_control_set_parameter_value (i : Nat) (j : Int) (value : V)
  | oscSend_control_set_peaks (i : Nat)
  | idleOsc
  | carla_msleep (msecs : Nat)
  deriving DecidableEq

variable {V : Type}

/-- The conversion `static_cast<int32_t>(j)` of a `uint32_t`. -/
def static_cast_int32 (j : Nat) : Int :=
  if j % 2 ^ 32 < 2 ^ 31 then ((j % 2 ^ 32 : Nat) : Int) else ((j % 2 ^ 32 : Nat) : Int) - 2 ^ 32

/-- The conversion to `bool` of `plugin->getHints() & PLUGIN_NEEDS_SINGLE_THREAD`. -/
def needsSingleThread (PLUGIN_NEEDS_SINGLE_THREAD hints : Nat) : Bool :=
  (hints &&& PLUGIN_NEEDS_SINGLE_THREAD) != 0

/-- The attachment query of the iteration (lines 52-56). -/
def oscRegistedCall (BUILD_BRIDGE : Bool) : Call V :=
  if BUILD_BRIDGE then Call.isOscBridgeRegistered else Call.isOscControlRegistered

/-- The value of `oscRegisted` for the iteration (lines 52-56). -/
def oscRegisted (BUILD_BRIDGE : Bool) (fEngine : CarlaEngine V) : Bool :=
  if BUILD_BRIDGE then fEngine.isOscBridgeRegistered else fEngine.isOscControlRegistered

/-- Body of the parameter loop for index `j` (lines 80-97). -/
def parameterBody (BUILD_BRIDGE oscRegisted needsSingleThread : Bool) (i : Nat)
    (plugin : CarlaPlugin V) (j : Nat) : List (Call V) :=
  Call.isParameterOutput i j ::
    (if !plugin.isParameterOutput j then []
     else
      Call.getParameterValue i j ::
        ((if !needsSingleThread then [Call.uiParameterChange i j (plugin.getParameterValue j)]
          else []) ++
         (if oscRegisted then
            (if BUILD_BRIDGE then
              [Call.oscSend_bridge_parameter_value i j (plugin.getParameterValue j)]
             else
              [Call.oscSend_control_set_parameter_value i (static_cast_int32 j)
                (plugin.getParameterValue j)])
          else [])))

/-- The loop `for (j = 0, pcount = ...; j < pcount; ++j)` (line 78), entered at index `j` with
`remaining = pcount - j` iterations still to run. -/
def parameterLoop (BUILD_BRIDGE oscRegisted needsSingleThread : Bool) (i : Nat)
    (plugin : CarlaPlugin V) : (remaining : Nat) → (j : Nat) → List (Call V)
  | 0, _ => []
  | remaining + 1, j =>
      parameterBody BUILD_BRIDGE oscRegisted needsSingleThread i plugin j ++
        parameterLoop BUILD_BRIDGE oscRegisted needsSingleThread i plugin remaining (j + 1)

/-- The block guarded by `if (oscRegisted || ! needsSingleThread)` (lines 70-107). -/
def gatedWork (BUILD_BRIDGE oscRegisted needsSingleThread : Bool) (i : Nat)
    (plugin : CarlaPlugin V) : List (Call V) :=
  if oscRegisted || !needsSingleThread then
    (if !needsSingleThread then [Call.postRtEventsRun i] else []) ++
      (Call.getParameterCount i ::
        parameterLoop BUILD_BRIDGE oscRegisted needsSingleThread i plugin
          plugin.getParameterCount 0) ++
      (if !BUILD_BRIDGE && oscRegisted then [Call.oscSend_control_set_peaks i] else [])
  else []

/-- Modelled from the spec: the macro `CARLA_SAFE_ASSERT_CONTINUE(cond)` is defined in
`CarlaDefines.h`, which is not among the sources. By step 2a of the per-iteration algorithm, a
failed condition is "logged as an assertion continue" and the slot is skipped: the log is made
and `continue` leaves the loop body; otherwise the `rest` of the body runs. -/
def CARLA_SAFE_ASSERT_CONTINUE (cond : Bool) (i : Nat) (rest : List (Call V)) : List (Call V) :=
  if cond then rest else [Call.carla_safe_assert i]

/-- Modelled from the spec: the macro `CARLA_SAFE_ASSERT_UINT2(cond, v1, v2)` is defined in
`CarlaDefines.h`, which is not among the sources. By step 2b of the per-iteration algorithm a
mismatch "is logged but does not stop iteration", and unlike `CARLA_SAFE_ASSERT_CONTINUE`
(line 62) or `CARLA_SAFE_ASSERT_INT2_RETURN` (`CarlaProcessUtils.cpp`, line 77) its name
carries no control-flow suffix: on failure the two value arguments are evaluated (`args` are
the calls this takes) and logged, and in both cases execution goes on with the next
statement. -/
def CARLA_SAFE_ASSERT_UINT2 (cond : Bool) (i : Nat) (args : List (Call V)) (v1 v2 : Nat) :
    List (Call V) :=
  if cond then [] else args ++ [Call.carla_safe_assert_uint2 i v1 v2]

/-- The statement `CARLA_SAFE_ASSERT_UINT2(i == plugin->getId(), i, plugin->getId())`
(line 63). -/
def idCheck (i : Nat) (plugin : CarlaPlugin V) : List (Call V) :=
  Call.getId i ::
    CARLA_SAFE_ASSERT_UINT2 (i == plugin.getId) i [Call.getId i] i plugin.getId

/-- Body of the plugin loop for slot `i` (lines 60-107). In the condition of line 62,
`plugin->isEnabled()` is only evaluated for a non-null handle. -/
def processSlot (BUILD_BRIDGE : Bool) (PLUGIN_NEEDS_SINGLE_THREAD : Nat) (oscRegisted : Bool)
    (fEngine : CarlaEngine V) (i : Nat) : List (Call V) :=
  Call.getPluginUnchecked i ::
    (match fEngine.getPluginUnchecked i with
     | none => CARLA_SAFE_ASSERT_CONTINUE false i []
     | some plugin =>
        Call.isEnabled i ::
          CARLA_SAFE_ASSERT_CONTINUE plugin.isEnabled i
            (idCheck i plugin ++
              (Call.getHints i ::
                gatedWork BUILD_BRIDGE oscRegisted
                  (needsSingleThread PLUGIN_NEEDS_SINGLE_THREAD plugin.getHints) i plugin)))

/-- The loop `for (i = 0, count = ...; i < count; ++i)` (line 58), entered at index `i` with
`remaining = count - i` iterations still to run. -/
def pluginLoop (BUILD_BRIDGE : Bool) (PLUGIN_NEEDS_SINGLE_THREAD : Nat) (oscRegisted : Bool)
    (fEngine : CarlaEngine V) : (remaining : Nat) → (i : Nat) → List (Call V)
  | 0, _ => []
  | remaining + 1, i =>
      processSlot BUILD_BRIDGE PLUGIN_NEEDS_SINGLE_THREAD oscRegisted fEngine i ++
        pluginLoop BUILD_BRIDGE PLUGIN_NEEDS_SINGLE_THREAD oscRegisted fEngine remaining (i + 1)

/-- One iteration of the loop of `CarlaEngineThread::run` (lines 52-111): the calls it makes,
in order. -/
def runIteration (BUILD_BRIDGE : Bool) (PLUGIN_NEEDS_SINGLE_THREAD : Nat)
    (fEngine : CarlaEngine V) : List (Call V) :=
  oscRegistedCall BUILD_BRIDGE ::
    Call.getCurrentPluginCount ::
      (pluginLoop BUILD_BRIDGE PLUGIN_NEEDS_SINGLE_THREAD (oscRegisted BUILD_BRIDGE fEngine)
          fEngine fEngine.getCurrentPluginCount 0 ++
        [Call.idleOsc, Call.carla_msleep (if oscRegisted BUILD_BRIDGE fEngine then 30 else 50)])

/-! ## Classification of calls -/

/-- The slot a call belongs to, if any. -/
def Call.slot : Call V → Option Nat
  | .getPluginUnchecked i => some i
  | .isEnabled i => some i
  | .carla_safe_assert i => some i
  | .getId i => some i
  | .carla_safe_assert_uint2 i _ _ => some i
  | .getHints i => some i
  | .postRtEventsRun i => some i
  | .getParameterCount i => some i
  | .isParameterOutput i _ => some i
  | .getParameterValue i _ => some i
  | .uiParameterChange i _ _ => some i
  | .oscSend_bridge_parameter_value i _ _ => some i
  | .oscSend_control_set_parameter_value i _ _ => some i
  | .oscSend_control_set_peaks i => some i
  | _ => none

/-- Messages sent to the control channel. -/
def Call.isChannelSend : Call V → Bool
  | .oscSend_bridge_parameter_value _ _ _ => true
  | .oscSend_control_set_parameter_value _ _ _ => true
  | .oscSend_control_set_peaks _ => true
  | _ => false

/-- Drain, parameter, UI and channel calls: everything a slot does past the inspection of
the handle, of `isEnabled`, of `getId` and of `getHints`. -/
def Call.isSlotWork : Call V → Bool
  | .postRtEventsRun _ => true
  | .getParameterCount _ => true
  | .isParameterOutput _ _ => true
  | .getParameterValue _ _ => true
  | .uiParameterChange _ _ _ => true
  | .oscSend_bridge_parameter_value _ _ _ => true
  | .oscSend_control_set_parameter_value _ _ _ => true
  | .oscSend_control_set_peaks _ => true
  | _ => false

/-- Whether a call belongs to slot `k`. -/
def Call.inSlot (k : Nat) (c : Call V) : Bool :=
  c.slot == some k

/-! ## Channel messages as the specification words them -/

/-- Messages of one slot: one `set_parameter_value` per output parameter in ascending order,
then one `set_peaks`, for a non-null enabled handle; nothing otherwise. -/
def expectedSlotMessages (fEngine : CarlaEngine V) (i : Nat) : List (Call V) :=
  match fEngine.getPluginUnchecked i with
  | none => []
  | some plugin =>
      if plugin.isEnabled then
        ((List.range plugin.getParameterCount).filter plugin.isParameterOutput).map
            (fun j => Call.oscSend_control_set_parameter_value i (static_cast_int32 j)
              (plugin.getParameterValue j)) ++
          [Call.oscSend_control_set_peaks i]
      else []

/-- Messages of one standalone iteration: those of the slots `0 .. count-1` in ascending order
when the channel is attached, none otherwise. -/
def expectedChannelMessages (fEngine : CarlaEngine V) : List (Call V) :=
  if fEngine.isOscControlRegistered then
    (List.range fEngine.getCurrentPluginCount).flatMap (expectedSlotMessages fEngine)
  else []

/-- The end-to-end scenario: three slots with ids 0, 1, 2, slot 1 disabled, channel attached,
plugins 0 and 2 with one output parameter each, of values 0.5 and -0.2. -/
def scenarioPlugin (id : Nat) (enabled : Bool) (value : ℚ) : CarlaPlugin ℚ where
  isEnabled := enabled
  getId := id
  getHints := 0
  getParameterCount := 1
  isParameterOutput := fun _ => true
  getParameterValue := fun _ => value

/-- Engine of the end-to-end scenario. -/
def scenarioEngine : CarlaEngine ℚ where
  isOscBridgeRegistered := false
  isOscControlRegistered := true
  getCurrentPluginCount := 3
  getPluginUnchecked := fun i =>
    match i with
    | 0 => some (scenarioPlugin 0 true 0.5)
    | 1 => some (scenarioPlugin 1 false 0)
    | 2 => some (scenarioPlugin 2 true (-0.2))
    | _ => none

/-- One slot, channel attached, whose enabled plugin reports id 7 instead of 0; it has no
hints and one output parameter of value 0.5. -/
def mismatchEngine : CarlaEngine ℚ where
  isOscBridgeRegistered := true
  isOscControlRegistered := true
  getCurrentPluginCount := 1
  getPluginUnchecked := fun i =>
    match i with
    | 0 => some (scenarioPlugin 7 true 0.5)
    | _ => none

/-- An enabled plugin with id 0 whose hints are exactly `0x100`, with one output parameter. -/
def singleThreadPlugin : CarlaPlugin ℚ where
  isEnabled := true
  getId := 0
  getHints := 256
  getParameterCount := 1
  isParameterOutput := fun _ => true
  getParameterValue := fun _ => 0.5

/-- One slot holding `singleThreadPlugin`, channel not attached. -/
def singleThreadEngine : CarlaEngine ℚ where
  isOscBridgeRegistered := false
  isOscControlRegistered := false
  getCurrentPluginCount := 1
  getPluginUnchecked := fun i =>
    match i with
    | 0 => some singleThreadPlugin
    | _ => none

/-- The snapshot `fEngine` with the handle of slot `k` replaced by `plugin`. -/
def setSlot (fEngine : CarlaEngine V) (k : Nat) (plugin : CarlaPlugin V) : CarlaEngine V where
  isOscBridgeRegistered := fEngine.isOscBridgeRegistered
  isOscControlRegistered := fEngine.isOscControlRegistered
  getCurrentPluginCount := fEngine.getCurrentPluginCount
  getPluginUnchecked := fun i => if i = k then some plugin else fEngine.getPluginUnchecked i

/-- The attachment queries. -/
def Call.isAttachQuery : Call V → Bool
  | .isOscBridgeRegistered => true
  | .isOscControlRegistered => true
  | _ => false

/-- The sleeps. -/
def Call.isSleep : Call V → Bool
  | .carla_msleep _ => true
  | _ => false

/-- The reads of the plugin count. -/
def Call.isCountRead : Call V → Bool
  | .getCurrentPluginCount => true
  | _ => false

/-- The calls of `idleOsc`. -/
def Call.isIdleOsc : Call V → Bool
  | .idleOsc => true
  | _ => false

/-- The index of a handle fetch. -/
def Call.fetchedIndex : Call V → Option Nat
  | .getPluginUnchecked i => some i
  | _ => none

/-- An engine with no slot, channel not attached. -/
def emptyEngine : CarlaEngine ℚ where
  isOscBridgeRegistered := false
  isOscControlRegistered := false
  getCurrentPluginCount := 0
  getPluginUnchecked := fun _ => none

/-! ## ScopedAbortCatcher (non-Windows build) -/

/-- A value of type `sig_t`: the address of `ScopedAbortCatcher::sig_handler`, or any other
value (`SIG_DFL`, `SIG_IGN`, a handler of somebody else); `other 0` is the null pointer. -/
inductive sig_t where
  | sig_handler
  | other (address : Nat)
  deriving DecidableEq

/-- The null pointer of type `sig_t`. -/
def sig_t.nullptr : sig_t := sig_t.other 0

/-- The signal number of `SIGABRT`. -/
def SIGABRT : Nat := 6

/-- The process-wide state `ScopedAbortCatcher` works on: its two static members, and the handler
installed for each signal number, as seen through `std::signal`. The saved context `s_env` is
the point of the constructor where `setjmp` returns; see `ScopedAbortCatcher.afterSetjmp`. -/
structure AbortState where
  s_triggered : Bool
  s_oldsig : sig_t
  handlers : Nat → sig_t

/-- The call `std::signal(signum, handler)`: installs `handler` and returns the previous one. -/
def std_signal (signum : Nat) (handler : sig_t) (st : AbortState) : sig_t × AbortState :=
  (st.handlers signum,
    { st with handlers := fun s => if s = signum then handler else st.handlers s })

/-- The constructor from the point where `setjmp(s_env)` returns `ret` (lines 55-57): `0` on the
direct call, the value given to `longjmp` when control comes back from `sig_handler`. -/
def ScopedAbortCatcher.afterSetjmp (ret : Int) (st : AbortState) : AbortState :=
  if ret == 0 then
    let r := std_signal SIGABRT sig_t.sig_handler st
    { r.2 with s_oldsig := r.1 }
  else
    { st with s_oldsig := sig_t.nullptr }

/-- The constructor `ScopedAbortCatcher::ScopedAbortCatcher()` (lines 51-59). -/
def ScopedAbortCatcher.ctor (st : AbortState) : AbortState :=
  ScopedAbortCatcher.afterSetjmp 0 { st with s_triggered := false }

/-- The destructor `ScopedAbortCatcher::~ScopedAbortCatcher()` (lines 61-67). -/
def ScopedAbortCatcher.dtor (st : AbortState) : AbortState :=
  if !st.s_triggered then (std_signal SIGABRT st.s_oldsig st).2 else st

/-- The handler `ScopedAbortCatcher::sig_handler(signum)` (lines 75-82): returns after the log
for another signal number; otherwise sets the flag, reinstalls `s_oldsig` and jumps with
`longjmp(s_env, 1)`, which resumes the constructor where `setjmp` returns 1. -/
def ScopedAbortCatcher.sig_handler (signum : Nat) (st : AbortState) : AbortState :=
  if signum != SIGABRT then st
  else
    let st1 := { st with s_triggered := true }
    let st2 := (std_signal signum st1.s_oldsig st1).2
    ScopedAbortCatcher.afterSetjmp 1 st2

/-- Delivery of signal `signum` to the process: runs `sig_handler` when it is the installed
handler; any other disposition is outside this model (`none`). -/
def deliver (signum : Nat) (st : AbortState) : Option AbortState :=
  match st.handlers signum with
  | sig_t.sig_handler => some (ScopedAbortCatcher.sig_handler signum st)
  | sig_t.other _ => none

/-! ## CarlaSignalRestorer (non-Windows build) -/

/-- A `struct sigaction`; the guard copies it and never looks inside. -/
structure sigaction where
  sa_handler : Nat
  sa_mask : Nat
  sa_flags : Nat
  deriving DecidableEq

/-- The all-zero record left by `carla_zeroStructs`. -/
def sigaction.zero : sigaction := ⟨0, 0, 0⟩

/-- What the platform fixes about `sigaction(2)`: the valid signal numbers are `1 .. nsig`, and
the action of the signals of `unchangeable` (`SIGKILL`, `SIGSTOP`) cannot be set. -/
structure Platform where
  nsig : Nat
  unchangeable : Nat → Bool

/-- Result of one call of `sigaction(2)`. -/
structure SigactionResult where
  ret : Int
  oldact : sigaction
  table : Nat → sigaction

/-- The call `sigaction(signum, act, oldact)` on the disposition table of the process: fails with
-1 and no effect for an invalid signal number or an attempt to set an unchangeable signal;
otherwise reports the current disposition and installs `act` when it is not null. -/
def sys_sigaction (P : Platform) (signum : Nat) (act : Option sigaction)
    (table : Nat → sigaction) : SigactionResult :=
  if signum < 1 || P.nsig < signum || (act.isSome && P.unchangeable signum) then
    ⟨-1, sigaction.zero, table⟩
  else
    ⟨0, table signum,
      match act with
      | none => table
      | some a => fun s => if s = signum then a else table s⟩

/-- The loop of the constructor (lines 92-93), entered at index `i` with `remaining = 16 - i`
iterations to run: `sigaction(i+1, nullptr, &sigs[i])`. A failed call leaves `sigs[i]` as it
is. -/
def CarlaSignalRestorer.ctorLoop (P : Platform) (table : Nat → sigaction) :
    (remaining : Nat) → (i : Nat) → (sigs : Nat → sigaction) → (Nat → sigaction)
  | 0, _, sigs => sigs
  | remaining + 1, i, sigs =>
      let r := sys_sigaction P (i + 1) none table
      CarlaSignalRestorer.ctorLoop P table remaining (i + 1)
        (if r.ret == 0 then fun k => if k = i then r.oldact else sigs k else sigs)

/-- The constructor `CarlaSignalRestorer::CarlaSignalRestorer()` (lines 87-95): the member `sigs`
after it, for the disposition table `table`. -/
def CarlaSignalRestorer.ctor (P : Platform) (table : Nat → sigaction) : Nat → sigaction :=
  CarlaSignalRestorer.ctorLoop P table 16 0 (fun _ => sigaction.zero)

/-- The loop of the destructor (lines 100-101), entered at index `i` with `remaining = 16 - i`
iterations to run: `sigaction(i+1, &sigs[i], nullptr)`. -/
def CarlaSignalRestorer.dtorLoop (P : Platform) (sigs : Nat → sigaction) :
    (remaining : Nat) → (i : Nat) → (table : Nat → sigaction) → (Nat → sigaction)
  | 0, _, table => table
  | remaining + 1, i, table =>
      CarlaSignalRestorer.dtorLoop P sigs remaining (i + 1)
        (sys_sigaction P (i + 1) (some (sigs i)) table).table

/-- The destructor `CarlaSignalRestorer::~CarlaSignalRestorer()` (lines 97-103): the disposition
table after it. -/
def CarlaSignalRestorer.dtor (P : Platform) (sigs : Nat → sigaction)
    (table : Nat → sigaction) : Nat → sigaction :=
  CarlaSignalRestorer.dtorLoop P sigs 16 0 table

/-- Disposition changes made while the guard is alive: a sequence of calls
`sigaction(signum, &act, ...)`, in order. -/
def applyChanges (P : Platform) : List (Nat × sigaction) → (Nat → sigaction) → (Nat → sigaction)
  | [], table => table
  | c :: cs, table => applyChanges P cs (sys_sigaction P c.1 (some c.2) table).table

/-- Linux numbering: 64 signals, `SIGKILL = 9` and `SIGSTOP = 19` unchangeable. -/
def linuxPlatform : Platform where
  nsig := 64
  unchangeable := fun s => s == 9 || s == 19

/-- A table where signal `s` has handler `100 + s`. -/
def sampleTable : Nat → sigaction := fun s => if s = 9 then sigaction.zero else ⟨100 + s, 0, 0⟩

/-- A process state with a foreign `SIGABRT` handler and the flag left set by an earlier
guard. -/
def sampleAbortState : AbortState where
  s_triggered := true
  s_oldsig := sig_t.other 5
  handlers := fun _ => sig_t.other 42

/-- The calls of `postRtEventsRun`. -/
def Call.isDrain : Call V → Bool
  | .postRtEventsRun _ => true
  | _ => false

/-- The calls of `uiParameterChange`. -/
def Call.isUiChange : Call V → Bool
  | .uiParameterChange _ _ _ => true
  | _ => false

/-- The parameter reads: `getParameterCount`, `isParameterOutput`, `getParameterValue`. -/
def Call.isParameterRead : Call V → Bool
  | .getParameterCount _ => true
  | .isParameterOutput _ _ => true
  | .getParameterValue _ _ => true
  | _ => false

/-- The calls of `getParameterValue`. -/
def Call.isValueRead : Call V → Bool
  | .getParameterValue _ _ => true
  | _ => false

/-- The parameter-value messages sent to the channel, in either mode. -/
def Call.isParameterSend : Call V → Bool
  | .oscSend_bridge_parameter_value _ _ _ => true
  | .oscSend_control_set_parameter_value _ _ _ => true
  | _ => false

/-- One slot holding `singleThreadPlugin`, channel attached. -/
def singleThreadAttachedEngine : CarlaEngine ℚ where
  isOscBridgeRegistered := true
  isOscControlRegistered := true
  getCurrentPluginCount := 1
  getPluginUnchecked := fun i =>
    match i with
    | 0 => some singleThreadPlugin
    | _ => none

/-! ## The loops as maps over index ranges -/

theorem parameterLoop_eq_flatMap (b o t : Bool) (i : Nat) (p : CarlaPlugin V) (n j : Nat) :
    parameterLoop b o t i p n j = (List.range' j n).flatMap (parameterBody b o t i p) := by
  induction n generalizing j with
  | zero => rfl
  | succ n ih => simp [parameterLoop, List.range'_succ, ih]

theorem pluginLoop_eq_flatMap (b : Bool) (m : Nat) (o : Bool) (e : CarlaEngine V) (n i : Nat) :
    pluginLoop b m o e n i = (List.range' i n).flatMap (processSlot b m o e) := by
  induction n generalizing i with
  | zero => rfl
  | succ n ih => simp [pluginLoop, List.range'_succ, ih]

theorem filter_flatMap_eq_flatMap_filter {α β : Type} (l : List α) (g : α → List β)
    (f : β → Bool) : (l.flatMap g).filter f = l.flatMap (fun a => (g a).filter f) := by
  induction l with
  | nil => rfl
  | cons a l ih => simp [ih]

theorem flatMap_congr_mem {α β : Type} (l : List α) (g h : α → List β)
    (hgh : ∀ a ∈ l, g a = h a) : l.flatMap g = l.flatMap h := by
  induction l with
  | nil => rfl
  | cons a l ih =>
      simp only [List.flatMap_cons]
      rw [hgh a (List.mem_cons_self a l), ih (fun x hx => hgh x (List.mem_cons_of_mem a hx))]

/-! ## Channel messages of one iteration -/

theorem parameterBody_channel (t : Bool) (i : Nat) (p : CarlaPlugin V) (j : Nat) :
    (parameterBody false true t i p j).filter Call.isChannelSend =
      if p.isParameterOutput j then
        [Call.oscSend_control_set_parameter_value i (static_cast_int32 j) (p.getParameterValue j)]
      else [] := by
  cases t <;> cases h : p.isParameterOutput j <;>
    simp [parameterBody, h, Call.isChannelSend]

theorem parameterBody_channel_detached (b t : Bool) (i : Nat) (p : CarlaPlugin V) (j : Nat) :
    (parameterBody b false t i p j).filter Call.isChannelSend = [] := by
  cases t <;> cases h : p.isParameterOutput j <;>
    simp [parameterBody, h, Call.isChannelSend]

theorem flatMap_ite_singleton {α β : Type} (l : List α) (q : α → Bool) (f : α → β) :
    l.flatMap (fun a => if q a then [f a] else []) = (l.filter q).map f := by
  induction l with
  | nil => rfl
  | cons a l ih => cases h : q a <;> simp [h, ih]

theorem processSlot_none (b : Bool) (m : Nat) (o : Bool) (e : CarlaEngine V) (i : Nat)
    (h : e.getPluginUnchecked i = none) :
    processSlot b m o e i = [Call.getPluginUnchecked i, Call.carla_safe_assert i] := by
  simp [processSlot, CARLA_SAFE_ASSERT_CONTINUE, h]

theorem processSlot_disabled (b : Bool) (m : Nat) (o : Bool) (e : CarlaEngine V) (i : Nat)
    (p : CarlaPlugin V) (h : e.getPluginUnchecked i = some p) (hen : p.isEnabled = false) :
    processSlot b m o e i =
      [Call.getPluginUnchecked i, Call.isEnabled i, Call.carla_safe_assert i] := by
  simp [processSlot, CARLA_SAFE_ASSERT_CONTINUE, h, hen]

theorem processSlot_enabled (b : Bool) (m : Nat) (o : Bool) (e : CarlaEngine V) (i : Nat)
    (p : CarlaPlugin V) (h : e.getPluginUnchecked i = some p) (hen : p.isEnabled = true) :
    processSlot b m o e i =
      Call.getPluginUnchecked i :: Call.isEnabled i ::
        (idCheck i p ++
          (Call.getHints i :: gatedWork b o (needsSingleThread m p.getHints) i p)) := by
  simp [processSlot, CARLA_SAFE_ASSERT_CONTINUE, h, hen]

theorem idCheck_channel (i : Nat) (p : CarlaPlugin V) :
    (idCheck i p).filter Call.isChannelSend = [] := by
  unfold idCheck CARLA_SAFE_ASSERT_UINT2
  by_cases h : i = p.getId <;> simp [h, Call.isChannelSend]

theorem processSlot_channel (m : Nat) (e : CarlaEngine V) (i : Nat) :
    (processSlot false m true e i).filter Call.isChannelSend = expectedSlotMessages e i := by
  unfold expectedSlotMessages
  cases hp : e.getPluginUnchecked i with
  | none => simp [processSlot_none _ _ _ _ _ hp, Call.isChannelSend]
  | some p =>
      dsimp only
      cases hen : p.isEnabled with
      | false => simp [processSlot_disabled _ _ _ _ _ _ hp hen, Call.isChannelSend]
      | true =>
          have hpar : (parameterLoop false true (needsSingleThread m p.getHints) i p
                p.getParameterCount 0).filter Call.isChannelSend =
              ((List.range p.getParameterCount).filter p.isParameterOutput).map
                (fun j => Call.oscSend_control_set_parameter_value i (static_cast_int32 j)
                  (p.getParameterValue j)) := by
            rw [parameterLoop_eq_flatMap, filter_flatMap_eq_flatMap_filter,
              ← List.range_eq_range', ← flatMap_ite_singleton]
            exact flatMap_congr_mem _ _ _ (fun j _ => parameterBody_channel _ i p j)
          rw [processSlot_enabled _ _ _ _ _ _ hp hen]
          cases hn : needsSingleThread m p.getHints <;>
            simp [gatedWork, idCheck_channel, Call.isChannelSend] <;>
            simpa [hn] using hpar

theorem processSlot_channel_detached (b : Bool) (m : Nat) (e : CarlaEngine V) (i : Nat) :
    (processSlot b m false e i).filter Call.isChannelSend = [] := by
  cases hp : e.getPluginUnchecked i with
  | none => simp [processSlot_none _ _ _ _ _ hp, Call.isChannelSend]
  | some p =>
      cases hen : p.isEnabled with
      | false => simp [processSlot_disabled _ _ _ _ _ _ hp hen, Call.isChannelSend]
      | true =>
          have hpar : (parameterLoop b false (needsSingleThread m p.getHints) i p
                p.getParameterCount 0).filter Call.isChannelSend = [] := by
            rw [parameterLoop_eq_flatMap, filter_flatMap_eq_flatMap_filter]
            simp [parameterBody_channel_detached]
          rw [processSlot_enabled _ _ _ _ _ _ hp hen]
          cases hn : needsSingleThread m p.getHints
          · rw [hn] at hpar
            simp [gatedWork, idCheck_channel, hpar, Call.isChannelSend, List.filter_cons]
          · simp [gatedWork, idCheck_channel, Call.isChannelSend, List.filter_cons]

theorem runIteration_eq_append (b : Bool) (m : Nat) (e : CarlaEngine V) :
    runIteration b m e =
      (oscRegistedCall b :: Call.getCurrentPluginCount ::
          pluginLoop b m (oscRegisted b e) e e.getCurrentPluginCount 0) ++
        [Call.idleOsc, Call.carla_msleep (if oscRegisted b e then 30 else 50)] := rfl

theorem static_cast_int32_of_lt (j : Nat) (h : j < 2 ^ 31) : static_cast_int32 j = (j : Int) := by
  have h2 : j % 2 ^ 32 = j := Nat.mod_eq_of_lt (by omega)
  unfold static_cast_int32
  rw [h2, if_pos h]

/-- C1: in standalone mode the channel messages of one iteration are, when the channel is
attached, for each slot in ascending order with a non-null enabled handle, one
`set_parameter_value` per output parameter in ascending order followed by one `set_peaks`, and
none when the channel is not attached (the parameter index is passed as
`static_cast<int32_t>(j)`, which is `j` below `2^31`); in the end-to-end scenario these are
exactly two `set_parameter_value` and two `set_peaks` messages for plugins 0 and 2, and the
iteration ends with a sleep of 30. -/
theorem C1_channel_messages :
    (∀ (V : Type) (PLUGIN_NEEDS_SINGLE_THREAD : Nat) (fEngine : CarlaEngine V),
      (runIteration false PLUGIN_NEEDS_SINGLE_THREAD fEngine).filter Call.isChannelSend =
        expectedChannelMessages fEngine) ∧
    (∀ j : Nat, j < 2 ^ 31 → static_cast_int32 j = (j : Int)) ∧
    (∀ PLUGIN_NEEDS_SINGLE_THREAD : Nat,
      (runIteration false PLUGIN_NEEDS_SINGLE_THREAD scenarioEngine).filter Call.isChannelSend =
        [Call.oscSend_control_set_parameter_value 0 0 0.5, Call.oscSend_control_set_peaks 0,
         Call.oscSend_control_set_parameter_value 2 0 (-0.2), Call.oscSend_control_set_peaks 2] ∧
      (runIteration false PLUGIN_NEEDS_SINGLE_THREAD scenarioEngine).getLast? =
        some (Call.carla_msleep 30)) := by
  refine ⟨?_, static_cast_int32_of_lt, ?_⟩
  · intro V m e
    unfold runIteration expectedChannelMessages
    have hq : (oscRegistedCall false : Call V) = Call.isOscControlRegistered := rfl
    have ho : oscRegisted false e = e.isOscControlRegistered := rfl
    rw [hq, ho, pluginLoop_eq_flatMap]
    simp only [List.filter_cons, List.filter_append, filter_flatMap_eq_flatMap_filter,
      Call.isChannelSend, List.filter_nil, List.append_nil, Bool.false_eq_true, if_false]
    cases e.isOscControlRegistered with
    | true =>
        simp only [if_true, ← List.range_eq_range']
        exact flatMap_congr_mem _ _ _ (fun i _ => processSlot_channel m e i)
    | false => simp [processSlot_channel_detached]
  · intro m
    have hm : needsSingleThread m 0 = false := by simp [needsSingleThread]
    constructor
    · simp [runIteration, pluginLoop, processSlot, scenarioEngine, scenarioPlugin, idCheck,
        CARLA_SAFE_ASSERT_CONTINUE, CARLA_SAFE_ASSERT_UINT2, gatedWork, hm, parameterLoop, parameterBody, oscRegisted, oscRegistedCall,
        Call.isChannelSend, static_cast_int32]
    · rw [runIteration_eq_append, List.getLast?_append]
      rfl

/-! ## Calls of one slot -/

theorem parameterBody_slot (b o t : Bool) (i : Nat) (p : CarlaPlugin V) (j : Nat) :
    ∀ c ∈ parameterBody b o t i p j, c.slot = some i := by
  cases b <;> cases o <;> cases t <;> cases h : p.isParameterOutput j <;>
    simp [parameterBody, h, Call.slot]

theorem parameterLoop_slot (b o t : Bool) (i : Nat) (p : CarlaPlugin V) (n j : Nat) :
    ∀ c ∈ parameterLoop b o t i p n j, c.slot = some i := by
  intro c hc
  rw [parameterLoop_eq_flatMap, List.mem_flatMap] at hc
  obtain ⟨a, _, ha⟩ := hc
  exact parameterBody_slot b o t i p a c ha

theorem gatedWork_slot (b o t : Bool) (i : Nat) (p : CarlaPlugin V) :
    ∀ c ∈ gatedWork b o t i p, c.slot = some i := by
  intro c hc
  unfold gatedWork at hc
  split at hc
  · simp only [List.mem_append, List.mem_cons] at hc
    rcases hc with (hc | hc | hc) | hc
    · split at hc
      · simp only [List.mem_singleton] at hc
        subst hc
        rfl
      · simp at hc
    · subst hc
      rfl
    · exact parameterLoop_slot b o t i p _ _ c hc
    · split at hc
      · simp only [List.mem_singleton] at hc
        subst hc
        rfl
      · simp at hc
  · simp at hc

theorem idCheck_slot (i : Nat) (p : CarlaPlugin V) : ∀ c ∈ idCheck i p, c.slot = some i := by
  unfold idCheck CARLA_SAFE_ASSERT_UINT2
  split <;> simp [Call.slot]

theorem processSlot_slot (b : Bool) (m : Nat) (o : Bool) (e : CarlaEngine V) (i : Nat) :
    ∀ c ∈ processSlot b m o e i, c.slot = some i := by
  intro c hc
  cases hp : e.getPluginUnchecked i with
  | none =>
      rw [processSlot_none _ _ _ _ _ hp] at hc
      simp only [List.mem_cons, List.mem_singleton, List.not_mem_nil, or_false] at hc
      rcases hc with hc | hc <;> subst hc <;> rfl
  | some p =>
      cases hen : p.isEnabled with
      | false =>
          rw [processSlot_disabled _ _ _ _ _ _ hp hen] at hc
          simp only [List.mem_cons, List.mem_singleton, List.not_mem_nil, or_false] at hc
          rcases hc with hc | hc | hc <;> subst hc <;> rfl
      | true =>
          rw [processSlot_enabled _ _ _ _ _ _ hp hen] at hc
          simp only [List.mem_cons, List.mem_append] at hc
          rcases hc with hc | hc | hc | hc | hc
          · subst hc
            rfl
          · subst hc
            rfl
          · exact idCheck_slot i p c hc
          · subst hc
            rfl
          · exact gatedWork_slot _ _ _ i p c hc

theorem processSlot_filter_inSlot (b : Bool) (m : Nat) (o : Bool) (e : CarlaEngine V)
    (i k : Nat) :
    (processSlot b m o e i).filter (Call.inSlot k) =
      if i = k then processSlot b m o e i else [] := by
  by_cases h : i = k
  · rw [if_pos h, List.filter_eq_self]
    intro c hc
    simp [Call.inSlot, processSlot_slot b m o e i c hc, h]
  · rw [if_neg h, List.filter_eq_nil_iff]
    intro c hc
    simp [Call.inSlot, processSlot_slot b m o e i c hc, h]

theorem pluginLoop_filter_inSlot (b : Bool) (m : Nat) (o : Bool) (e : CarlaEngine V)
    (k n s : Nat) :
    (pluginLoop b m o e n s).filter (Call.inSlot k) =
      if s ≤ k ∧ k < s + n then processSlot b m o e k else [] := by
  induction n generalizing s with
  | zero =>
      have h : ¬ (s ≤ k ∧ k < s + 0) := by omega
      rw [if_neg h]
      rfl
  | succ n ih =>
      simp only [pluginLoop, List.filter_append, processSlot_filter_inSlot, ih]
      by_cases hs : s = k
      · subst hs
        have h1 : ¬ (s + 1 ≤ s ∧ s < s + 1 + n) := by omega
        have h2 : s ≤ s ∧ s < s + (n + 1) := by omega
        simp [h1, h2]
      · by_cases h1 : s + 1 ≤ k ∧ k < s + 1 + n
        · have h2 : s ≤ k ∧ k < s + (n + 1) := by omega
          simp [hs, h1, h2]
        · have h2 : ¬ (s ≤ k ∧ k < s + (n + 1)) := by omega
          simp [hs, h1, h2]

theorem oscRegistedCall_slot (b : Bool) : (oscRegistedCall b : Call V).slot = none := by
  cases b <;> rfl

theorem runIteration_filter_inSlot (b : Bool) (m : Nat) (e : CarlaEngine V) (k : Nat) :
    (runIteration b m e).filter (Call.inSlot k) =
      if k < e.getCurrentPluginCount then processSlot b m (oscRegisted b e) e k else [] := by
  have hq : Call.inSlot k (oscRegistedCall b : Call V) = false := by
    simp [Call.inSlot, oscRegistedCall_slot]
  have hc : Call.inSlot k (Call.getCurrentPluginCount : Call V) = false := rfl
  have hi : Call.inSlot k (Call.idleOsc : Call V) = false := rfl
  have hs : ∀ t, Call.inSlot k (Call.carla_msleep t : Call V) = false := fun _ => rfl
  rw [runIteration_eq_append]
  simp only [List.filter_append, List.filter_cons, hq, hc, hi, hs, pluginLoop_filter_inSlot,
    List.filter_nil, List.append_nil, Bool.false_eq_true, if_false]
  simp

/-- Witness of C1: the conversion of parameter index 5 is 5. -/
theorem C1_channel_messages_witness : static_cast_int32 5 = 5 :=
  C1_channel_messages.2.1 5 (by decide)

/-! ## Identity mismatch -/

/-- C2, counterexample: a single slot whose enabled plugin reports id 7 instead of 0 is not
skipped; the iteration drains its events, reads its parameter, notifies the UI and sends both
channel messages for slot 0. -/
theorem C2_counterexample :
    mismatchEngine.getPluginUnchecked 0 = some (scenarioPlugin 7 true 0.5) ∧
    (scenarioPlugin 7 true 0.5).isEnabled = true ∧
    (scenarioPlugin 7 true 0.5).getId ≠ 0 ∧
    (runIteration false 256 mismatchEngine).filter (fun c => c.isSlotWork && c.inSlot 0) =
      [Call.postRtEventsRun 0, Call.getParameterCount 0, Call.isParameterOutput 0 0,
       Call.getParameterValue 0 0, Call.uiParameterChange 0 0 0.5,
       Call.oscSend_control_set_parameter_value 0 0 0.5, Call.oscSend_control_set_peaks 0] :=
  ⟨rfl, rfl, by decide, rfl⟩

/-- C2, amended: a slot `i < count` whose non-null, enabled plugin reports `getId() != i` is
not skipped. Its calls in one iteration are the handle fetch, `isEnabled`, `getId` (read again
for the log), the log of the mismatch with `i` and the reported id, `getHints`, and then the
same gated block as for a matching id: drain, parameter reads, UI notifications and channel
sends as the attachment state and the single-thread hint dictate. -/
theorem C2_id_mismatch_logged_and_processed (BUILD_BRIDGE : Bool)
    (PLUGIN_NEEDS_SINGLE_THREAD : Nat) (fEngine : CarlaEngine V) (i : Nat)
    (plugin : CarlaPlugin V) (hi : i < fEngine.getCurrentPluginCount)
    (hp : fEngine.getPluginUnchecked i = some plugin) (hen : plugin.isEnabled = true)
    (hid : plugin.getId ≠ i) :
    (runIteration BUILD_BRIDGE PLUGIN_NEEDS_SINGLE_THREAD fEngine).filter (Call.inSlot i) =
      [Call.getPluginUnchecked i, Call.isEnabled i, Call.getId i, Call.getId i,
        Call.carla_safe_assert_uint2 i i plugin.getId, Call.getHints i] ++
      gatedWork BUILD_BRIDGE (oscRegisted BUILD_BRIDGE fEngine)
        (needsSingleThread PLUGIN_NEEDS_SINGLE_THREAD plugin.getHints) i plugin := by
  rw [runIteration_filter_inSlot, if_pos hi, processSlot_enabled _ _ _ _ _ _ hp hen]
  have h : (i == plugin.getId) = false := by
    simpa using fun h : i = plugin.getId => hid h.symm
  simp [idCheck, CARLA_SAFE_ASSERT_UINT2, h]

/-- Witness of C2 (amended) on the mismatching slot 0 of `mismatchEngine`. -/
theorem C2_id_mismatch_logged_and_processed_witness :
    (runIteration false 256 mismatchEngine).filter (Call.inSlot 0) =
      [Call.getPluginUnchecked 0, Call.isEnabled 0, Call.getId 0, Call.getId 0,
        Call.carla_safe_assert_uint2 0 0 7, Call.getHints 0] ++
      gatedWork false true (needsSingleThread 256 0) 0 (scenarioPlugin 7 true 0.5) :=
  C2_id_mismatch_logged_and_processed false 256 mismatchEngine 0 (scenarioPlugin 7 true 0.5)
    (by decide) rfl rfl (by decide)

/-! ## The single-thread gate -/

theorem idCheck_isSlotWork (i : Nat) (p : CarlaPlugin V) :
    ∀ c ∈ idCheck i p, c.isSlotWork = false := by
  unfold idCheck CARLA_SAFE_ASSERT_UINT2
  split <;> simp [Call.isSlotWork]

/-- C3: when the channel is not attached, an enabled plugin whose hints include
`PLUGIN_NEEDS_SINGLE_THREAD` receives no call past the inspection: the calls of its slot are
the handle fetch, `isEnabled`, the id check and `getHints`, none of which is a drain, a
parameter read, a UI notification or a channel send. -/
theorem C3_single_thread_gate (BUILD_BRIDGE : Bool) (PLUGIN_NEEDS_SINGLE_THREAD : Nat)
    (fEngine : CarlaEngine V) (i : Nat) (plugin : CarlaPlugin V)
    (hosc : oscRegisted BUILD_BRIDGE fEngine = false)
    (hp : fEngine.getPluginUnchecked i = some plugin) (hen : plugin.isEnabled = true)
    (hst : plugin.getHints &&& PLUGIN_NEEDS_SINGLE_THREAD ≠ 0) :
    (∀ c ∈ runIteration BUILD_BRIDGE PLUGIN_NEEDS_SINGLE_THREAD fEngine,
      c.slot = some i → c.isSlotWork = false) ∧
    (i < fEngine.getCurrentPluginCount →
      (runIteration BUILD_BRIDGE PLUGIN_NEEDS_SINGLE_THREAD fEngine).filter (Call.inSlot i) =
        Call.getPluginUnchecked i :: Call.isEnabled i :: (idCheck i plugin ++ [Call.getHints i])) := by
  have hn : needsSingleThread PLUGIN_NEEDS_SINGLE_THREAD plugin.getHints = true := by
    simp [needsSingleThread, hst]
  have hslot : processSlot BUILD_BRIDGE PLUGIN_NEEDS_SINGLE_THREAD false fEngine i =
      Call.getPluginUnchecked i :: Call.isEnabled i :: (idCheck i plugin ++ [Call.getHints i]) := by
    rw [processSlot_enabled _ _ _ _ _ _ hp hen, hn]
    simp [gatedWork]
  constructor
  · intro c hc hs
    have hmem : c ∈ (runIteration BUILD_BRIDGE PLUGIN_NEEDS_SINGLE_THREAD fEngine).filter
        (Call.inSlot i) := by
      rw [List.mem_filter]
      exact ⟨hc, by simp [Call.inSlot, hs]⟩
    rw [runIteration_filter_inSlot, hosc] at hmem
    split at hmem
    · rw [hslot] at hmem
      simp only [List.mem_cons, List.mem_append, List.mem_singleton, List.not_mem_nil,
        or_false] at hmem
      rcases hmem with h | h | h | h
      · rw [h]; rfl
      · rw [h]; rfl
      · exact idCheck_isSlotWork i plugin c h
      · rw [h]; rfl
    · simp at hmem
  · intro hi
    rw [runIteration_filter_inSlot, if_pos hi, hosc, hslot]

/-- Witness of C3: slot 0 of `singleThreadEngine`, with the hint bit `0x100`. -/
theorem C3_single_thread_gate_witness :
    (∀ c ∈ runIteration false 256 singleThreadEngine, c.slot = some 0 → c.isSlotWork = false) ∧
    (0 < singleThreadEngine.getCurrentPluginCount →
      (runIteration false 256 singleThreadEngine).filter (Call.inSlot 0) =
        Call.getPluginUnchecked 0 :: Call.isEnabled 0 ::
          (idCheck 0 singleThreadPlugin ++ [Call.getHints 0])) :=
  C3_single_thread_gate false 256 singleThreadEngine 0 singleThreadPlugin rfl rfl rfl
    (by decide)

/-! ## Null and disabled slots -/

theorem processSlot_congr (b : Bool) (m : Nat) (o : Bool) (e e2 : CarlaEngine V) (i : Nat)
    (h : e.getPluginUnchecked i = e2.getPluginUnchecked i) :
    processSlot b m o e i = processSlot b m o e2 i := by
  unfold processSlot
  rw [h]

theorem processSlot_filter_not_inSlot (b : Bool) (m : Nat) (o : Bool) (e : CarlaEngine V)
    (i k : Nat) :
    (processSlot b m o e i).filter (fun c => !c.inSlot k) =
      if i = k then [] else processSlot b m o e i := by
  by_cases h : i = k
  · rw [if_pos h, List.filter_eq_nil_iff]
    intro c hc
    simp [Call.inSlot, processSlot_slot b m o e i c hc, h]
  · rw [if_neg h, List.filter_eq_self]
    intro c hc
    simp [Call.inSlot, processSlot_slot b m o e i c hc, h]

theorem pluginLoop_setSlot (b : Bool) (m : Nat) (o : Bool) (e : CarlaEngine V) (k : Nat)
    (q : CarlaPlugin V) (n s : Nat) :
    (pluginLoop b m o e n s).filter (fun c => !c.inSlot k) =
      (pluginLoop b m o (setSlot e k q) n s).filter (fun c => !c.inSlot k) := by
  rw [pluginLoop_eq_flatMap, pluginLoop_eq_flatMap, filter_flatMap_eq_flatMap_filter,
    filter_flatMap_eq_flatMap_filter]
  apply flatMap_congr_mem
  intro i _
  rw [processSlot_filter_not_inSlot, processSlot_filter_not_inSlot]
  by_cases h : i = k
  · rw [if_pos h, if_pos h]
  · rw [if_neg h, if_neg h]
    apply processSlot_congr
    simp [setSlot, h]

theorem mem_pluginLoop_fetch (b : Bool) (m : Nat) (o : Bool) (e : CarlaEngine V) (n s i : Nat)
    (h1 : s ≤ i) (h2 : i < s + n) : Call.getPluginUnchecked i ∈ pluginLoop b m o e n s := by
  rw [pluginLoop_eq_flatMap, List.mem_flatMap]
  refine ⟨i, List.mem_range'_1.mpr ⟨h1, h2⟩, ?_⟩
  unfold processSlot
  exact List.mem_cons_self _ _

/-- C4: a slot `k` whose handle is null or whose plugin is disabled receives no drain, parameter,
UI or channel call; the calls of the iteration outside slot `k` are, in the same order and with
the same arguments, those of the iteration on the snapshot where slot `k` holds any other plugin
(in particular an enabled plugin with zero parameters that nothing else skips); and every slot
below the count, those after `k` included, is still fetched. -/
theorem C4_null_or_disabled_slot_skipped (BUILD_BRIDGE : Bool)
    (PLUGIN_NEEDS_SINGLE_THREAD : Nat) (fEngine : CarlaEngine V) (k : Nat)
    (hk : fEngine.getPluginUnchecked k = none ∨
      ∃ plugin, fEngine.getPluginUnchecked k = some plugin ∧ plugin.isEnabled = false) :
    (∀ c ∈ runIteration BUILD_BRIDGE PLUGIN_NEEDS_SINGLE_THREAD fEngine,
      c.slot = some k → c.isSlotWork = false) ∧
    (∀ other : CarlaPlugin V,
      (runIteration BUILD_BRIDGE PLUGIN_NEEDS_SINGLE_THREAD fEngine).filter
          (fun c => !c.inSlot k) =
        (runIteration BUILD_BRIDGE PLUGIN_NEEDS_SINGLE_THREAD (setSlot fEngine k other)).filter
          (fun c => !c.inSlot k)) ∧
    (∀ i, i < fEngine.getCurrentPluginCount →
      Call.getPluginUnchecked i ∈ runIteration BUILD_BRIDGE PLUGIN_NEEDS_SINGLE_THREAD fEngine) := by
  refine ⟨?_, ?_, ?_⟩
  · intro c hc hs
    have hmem : c ∈ (runIteration BUILD_BRIDGE PLUGIN_NEEDS_SINGLE_THREAD fEngine).filter
        (Call.inSlot k) := by
      rw [List.mem_filter]
      exact ⟨hc, by simp [Call.inSlot, hs]⟩
    rw [runIteration_filter_inSlot] at hmem
    split at hmem
    · rcases hk with hnull | ⟨p, hp, hen⟩
      · rw [processSlot_none _ _ _ _ _ hnull] at hmem
        simp only [List.mem_cons, List.mem_singleton, List.not_mem_nil, or_false] at hmem
        rcases hmem with h | h <;> rw [h] <;> rfl
      · rw [processSlot_disabled _ _ _ _ _ _ hp hen] at hmem
        simp only [List.mem_cons, List.mem_singleton, List.not_mem_nil, or_false] at hmem
        rcases hmem with h | h | h <;> rw [h] <;> rfl
    · simp at hmem
  · intro q
    have hq : (fun c : Call V => !c.inSlot k) (oscRegistedCall BUILD_BRIDGE) = true := by
      simp [Call.inSlot, oscRegistedCall_slot]
    rw [runIteration_eq_append, runIteration_eq_append]
    simp only [List.filter_append, List.filter_cons, hq, if_true]
    rw [pluginLoop_setSlot BUILD_BRIDGE PLUGIN_NEEDS_SINGLE_THREAD _ fEngine k q]
    rfl
  · intro i hi
    rw [runIteration_eq_append]
    apply List.mem_append_left
    apply List.mem_cons_of_mem
    apply List.mem_cons_of_mem
    exact mem_pluginLoop_fetch _ _ _ _ _ _ _ (Nat.zero_le i) (by omega)

/-- Witness of C4: the disabled slot 1 of the end-to-end scenario. -/
theorem C4_null_or_disabled_slot_skipped_witness :
    (∀ c ∈ runIteration false 256 scenarioEngine, c.slot = some 1 → c.isSlotWork = false) ∧
    (∀ other : CarlaPlugin ℚ,
      (runIteration false 256 scenarioEngine).filter (fun c => !c.inSlot 1) =
        (runIteration false 256 (setSlot scenarioEngine 1 other)).filter
          (fun c => !c.inSlot 1)) ∧
    (∀ i, i < scenarioEngine.getCurrentPluginCount →
      Call.getPluginUnchecked i ∈ runIteration false 256 scenarioEngine) :=
  C4_null_or_disabled_slot_skipped false 256 scenarioEngine 1
    (Or.inr ⟨scenarioPlugin 1 false 0, rfl, rfl⟩)

/-! ## Shape of one iteration -/

theorem pluginLoop_slot (b : Bool) (m : Nat) (o : Bool) (e : CarlaEngine V) (n s : Nat) :
    ∀ c ∈ pluginLoop b m o e n s, ∃ i, s ≤ i ∧ i < s + n ∧ c.slot = some i := by
  intro c hc
  rw [pluginLoop_eq_flatMap, List.mem_flatMap] at hc
  obtain ⟨i, hi, hci⟩ := hc
  rw [List.mem_range'_1] at hi
  exact ⟨i, hi.1, hi.2, processSlot_slot b m o e i c hci⟩

theorem pluginLoop_filter_global (b : Bool) (m : Nat) (o : Bool) (e : CarlaEngine V) (n s : Nat)
    (f : Call V → Bool) (hf : ∀ c, f c = true → c.slot = none) :
    (pluginLoop b m o e n s).filter f = [] := by
  rw [List.filter_eq_nil_iff]
  intro c hc hfc
  obtain ⟨i, _, _, hi⟩ := pluginLoop_slot b m o e n s c hc
  rw [hf c hfc] at hi
  exact Option.noConfusion hi

theorem isSleep_slot (c : Call V) (h : c.isSleep = true) : c.slot = none := by
  cases c <;> first | rfl | exact Bool.noConfusion h

theorem isAttachQuery_slot (c : Call V) (h : c.isAttachQuery = true) : c.slot = none := by
  cases c <;> first | rfl | exact Bool.noConfusion h

theorem isCountRead_slot (c : Call V) (h : c.isCountRead = true) : c.slot = none := by
  cases c <;> first | rfl | exact Bool.noConfusion h

theorem isIdleOsc_slot (c : Call V) (h : c.isIdleOsc = true) : c.slot = none := by
  cases c <;> first | rfl | exact Bool.noConfusion h

theorem oscRegistedCall_isAttachQuery (b : Bool) :
    (oscRegistedCall b : Call V).isAttachQuery = true := by
  cases b <;> rfl

theorem oscRegistedCall_not_other (b : Bool) :
    (oscRegistedCall b : Call V).isSleep = false ∧
    (oscRegistedCall b : Call V).isCountRead = false ∧
    (oscRegistedCall b : Call V).isIdleOsc = false ∧
    (oscRegistedCall b : Call V).fetchedIndex = none := by
  cases b <;> exact ⟨rfl, rfl, rfl, rfl⟩

theorem runIteration_filter_global (b : Bool) (m : Nat) (e : CarlaEngine V)
    (f : Call V → Bool) (hf : ∀ c, f c = true → c.slot = none) :
    (runIteration b m e).filter f =
      [oscRegistedCall b, Call.getCurrentPluginCount, Call.idleOsc,
        Call.carla_msleep (if oscRegisted b e then 30 else 50)].filter f := by
  rw [runIteration_eq_append, List.filter_append, List.filter_cons, List.filter_cons,
    pluginLoop_filter_global _ _ _ _ _ _ f hf]
  simp only [List.filter_cons, List.filter_nil]
  cases f (oscRegistedCall b) <;> cases f Call.getCurrentPluginCount <;> rfl

/-- C5: the iteration starts with the one attachment query it makes and ends with the one sleep
it makes, of 30 when the queried state is true and of 50 when it is false, whatever the plugin
count, the skipped slots, the hints and the parameters. -/
theorem C5_sleep_duration (BUILD_BRIDGE : Bool) (PLUGIN_NEEDS_SINGLE_THREAD : Nat)
    (fEngine : CarlaEngine V) :
    (runIteration BUILD_BRIDGE PLUGIN_NEEDS_SINGLE_THREAD fEngine).getLast? =
      some (Call.carla_msleep (if oscRegisted BUILD_BRIDGE fEngine then 30 else 50)) ∧
    (runIteration BUILD_BRIDGE PLUGIN_NEEDS_SINGLE_THREAD fEngine).filter Call.isSleep =
      [Call.carla_msleep (if oscRegisted BUILD_BRIDGE fEngine then 30 else 50)] ∧
    (runIteration BUILD_BRIDGE PLUGIN_NEEDS_SINGLE_THREAD fEngine).head? =
      some (oscRegistedCall BUILD_BRIDGE) ∧
    (runIteration BUILD_BRIDGE PLUGIN_NEEDS_SINGLE_THREAD fEngine).filter Call.isAttachQuery =
      [oscRegistedCall BUILD_BRIDGE] := by
  refine ⟨?_, ?_, rfl, ?_⟩
  · rw [runIteration_eq_append, List.getLast?_append]
    rfl
  · rw [runIteration_filter_global _ _ _ Call.isSleep isSleep_slot]
    cases BUILD_BRIDGE <;> rfl
  · rw [runIteration_filter_global _ _ _ Call.isAttachQuery isAttachQuery_slot]
    cases BUILD_BRIDGE <;> rfl

theorem parameterBody_isSlotWork (b o t : Bool) (i : Nat) (p : CarlaPlugin V) (j : Nat) :
    ∀ c ∈ parameterBody b o t i p j, c.isSlotWork = true := by
  cases b <;> cases o <;> cases t <;> cases h : p.isParameterOutput j <;>
    simp [parameterBody, h, Call.isSlotWork]

theorem gatedWork_isSlotWork (b o t : Bool) (i : Nat) (p : CarlaPlugin V) :
    ∀ c ∈ gatedWork b o t i p, c.isSlotWork = true := by
  intro c hc
  unfold gatedWork at hc
  split at hc
  · simp only [List.mem_append, List.mem_cons] at hc
    rcases hc with (hc | hc | hc) | hc
    · split at hc
      · simp only [List.mem_singleton] at hc
        subst hc
        rfl
      · simp at hc
    · subst hc
      rfl
    · rw [parameterLoop_eq_flatMap, List.mem_flatMap] at hc
      obtain ⟨j, _, hj⟩ := hc
      exact parameterBody_isSlotWork b o t i p j c hj
    · split at hc
      · simp only [List.mem_singleton] at hc
        subst hc
        rfl
      · simp at hc
  · simp at hc

theorem fetchedIndex_of_isSlotWork (c : Call V) (h : c.isSlotWork = true) :
    c.fetchedIndex = none := by
  cases c <;> first | rfl | exact Bool.noConfusion h

theorem filterMap_eq_nil_of_forall {α β : Type} (l : List α) (f : α → Option β)
    (h : ∀ a ∈ l, f a = none) : l.filterMap f = [] := by
  induction l with
  | nil => rfl
  | cons a l ih =>
      rw [List.filterMap_cons, h a (List.mem_cons_self a l)]
      exact ih (fun x hx => h x (List.mem_cons_of_mem a hx))

theorem processSlot_fetchedIndex (b : Bool) (m : Nat) (o : Bool) (e : CarlaEngine V) (i : Nat) :
    (processSlot b m o e i).filterMap Call.fetchedIndex = [i] := by
  cases hp : e.getPluginUnchecked i with
  | none =>
      rw [processSlot_none _ _ _ _ _ hp]
      rfl
  | some p =>
      cases hen : p.isEnabled with
      | false =>
          rw [processSlot_disabled _ _ _ _ _ _ hp hen]
          rfl
      | true =>
          rw [processSlot_enabled _ _ _ _ _ _ hp hen]
          have hid : (idCheck i p).filterMap Call.fetchedIndex = [] := by
            unfold idCheck CARLA_SAFE_ASSERT_UINT2
            split <;> rfl
          have hg : (gatedWork b o (needsSingleThread m p.getHints) i p).filterMap
              Call.fetchedIndex = [] :=
            filterMap_eq_nil_of_forall _ _ (fun c hc =>
              fetchedIndex_of_isSlotWork c (gatedWork_isSlotWork _ _ _ i p c hc))
          simp [List.filterMap_cons, List.filterMap_append, hid, hg, Call.fetchedIndex]

theorem pluginLoop_fetchedIndex (b : Bool) (m : Nat) (o : Bool) (e : CarlaEngine V) (n s : Nat) :
    (pluginLoop b m o e n s).filterMap Call.fetchedIndex = List.range' s n := by
  induction n generalizing s with
  | zero => rfl
  | succ n ih =>
      simp only [pluginLoop, List.filterMap_append, processSlot_fetchedIndex, ih,
        List.range'_succ]
      rfl

/-- C6: the iteration reads the plugin count once and fetches the handles of exactly the
indices `0, 1, ..., n-1`, each once, in ascending order; every call made on a slot is for an
index below `n`, so that for `n = 0` the iteration is the attachment query, the count read,
`idleOsc` and the sleep. -/
theorem C6_visits_slots_in_order (BUILD_BRIDGE : Bool) (PLUGIN_NEEDS_SINGLE_THREAD : Nat)
    (fEngine : CarlaEngine V) :
    (runIteration BUILD_BRIDGE PLUGIN_NEEDS_SINGLE_THREAD fEngine).filter Call.isCountRead =
      [Call.getCurrentPluginCount] ∧
    (runIteration BUILD_BRIDGE PLUGIN_NEEDS_SINGLE_THREAD fEngine).filterMap Call.fetchedIndex =
      List.range fEngine.getCurrentPluginCount ∧
    (∀ c ∈ runIteration BUILD_BRIDGE PLUGIN_NEEDS_SINGLE_THREAD fEngine,
      ∀ i, c.slot = some i → i < fEngine.getCurrentPluginCount) ∧
    (fEngine.getCurrentPluginCount = 0 →
      runIteration BUILD_BRIDGE PLUGIN_NEEDS_SINGLE_THREAD fEngine =
        [oscRegistedCall BUILD_BRIDGE, Call.getCurrentPluginCount, Call.idleOsc,
          Call.carla_msleep (if oscRegisted BUILD_BRIDGE fEngine then 30 else 50)]) := by
  refine ⟨?_, ?_, ?_, ?_⟩
  · rw [runIteration_filter_global _ _ _ Call.isCountRead isCountRead_slot]
    cases BUILD_BRIDGE <;> rfl
  · rw [runIteration_eq_append, List.filterMap_append, List.filterMap_cons,
      (oscRegistedCall_not_other BUILD_BRIDGE).2.2.2]
    simp only [List.filterMap_cons, Call.fetchedIndex, pluginLoop_fetchedIndex,
      List.filterMap_nil, List.append_nil, List.range_eq_range']
  · intro c hc i hi
    rw [runIteration_eq_append] at hc
    simp only [List.mem_append, List.mem_cons, List.mem_singleton, List.not_mem_nil,
      or_false] at hc
    rcases hc with (h | h | h) | h | h
    · rw [h, oscRegistedCall_slot] at hi
      exact Option.noConfusion hi
    · rw [h] at hi
      exact Option.noConfusion hi
    · obtain ⟨i2, _, h2, h3⟩ := pluginLoop_slot _ _ _ _ _ _ c h
      rw [h3] at hi
      injection hi with hi
      omega
    · rw [h] at hi
      exact Option.noConfusion hi
    · rw [h] at hi
      exact Option.noConfusion hi
  · intro h0
    rw [runIteration_eq_append, h0]
    rfl

/-- Witness of C6: with a plugin count of 0 the iteration is four calls and sleeps 50. -/
theorem C6_visits_slots_in_order_witness :
    runIteration false 256 emptyEngine =
      [Call.isOscControlRegistered, Call.getCurrentPluginCount, Call.idleOsc,
        Call.carla_msleep 50] :=
  (C6_visits_slots_in_order false 256 emptyEngine).2.2.2 rfl

/-- C10: the iteration is some calls, none of them `idleOsc` or a sleep and among them every
call made on a slot, followed by `idleOsc` and then the sleep; so `idleOsc` is called exactly
once, after all slot processing and right before the sleep, whatever the attachment state, the
plugin count and the skipped slots. -/
theorem C10_idleOsc_once (BUILD_BRIDGE : Bool) (PLUGIN_NEEDS_SINGLE_THREAD : Nat)
    (fEngine : CarlaEngine V) :
    (∃ before : List (Call V),
      runIteration BUILD_BRIDGE PLUGIN_NEEDS_SINGLE_THREAD fEngine =
        before ++ [Call.idleOsc,
          Call.carla_msleep (if oscRegisted BUILD_BRIDGE fEngine then 30 else 50)] ∧
      before.filter Call.isIdleOsc = [] ∧ before.filter Call.isSleep = [] ∧
      (runIteration BUILD_BRIDGE PLUGIN_NEEDS_SINGLE_THREAD fEngine).filter
          (fun c => c.slot.isSome) = before.filter (fun c => c.slot.isSome)) ∧
    (runIteration BUILD_BRIDGE PLUGIN_NEEDS_SINGLE_THREAD fEngine).filter Call.isIdleOsc =
      [Call.idleOsc] := by
  have hidle : (oscRegistedCall BUILD_BRIDGE :: Call.getCurrentPluginCount ::
      pluginLoop BUILD_BRIDGE PLUGIN_NEEDS_SINGLE_THREAD (oscRegisted BUILD_BRIDGE fEngine)
        fEngine fEngine.getCurrentPluginCount 0).filter Call.isIdleOsc = [] := by
    rw [List.filter_cons, (oscRegistedCall_not_other BUILD_BRIDGE).2.2.1, List.filter_cons,
      pluginLoop_filter_global _ _ _ _ _ _ Call.isIdleOsc isIdleOsc_slot]
    rfl
  have hsleep : (oscRegistedCall BUILD_BRIDGE :: Call.getCurrentPluginCount ::
      pluginLoop BUILD_BRIDGE PLUGIN_NEEDS_SINGLE_THREAD (oscRegisted BUILD_BRIDGE fEngine)
        fEngine fEngine.getCurrentPluginCount 0).filter Call.isSleep = [] := by
    rw [List.filter_cons, (oscRegistedCall_not_other BUILD_BRIDGE).1, List.filter_cons,
      pluginLoop_filter_global _ _ _ _ _ _ Call.isSleep isSleep_slot]
    rfl
  refine ⟨⟨_, runIteration_eq_append _ _ _, hidle, hsleep, ?_⟩, ?_⟩
  · rw [runIteration_eq_append, List.filter_append]
    simp [Call.slot]
  · rw [runIteration_eq_append, List.filter_append, hidle]
    rfl

/-! ## ScopedAbortCatcher -/

/-- C7: whatever the state before construction, with `h` the handler then installed for
`SIGABRT`: a delivery of `SIGABRT` right after construction runs the trap, after which the flag
is true and the handler of `SIGABRT` (and of every signal) is `h` again; the destructor then
changes nothing, so the flag reads true and the handler is `h` after destruction. -/
theorem C7_triggered_path (st : AbortState) :
    ∃ st2 : AbortState,
      deliver SIGABRT (ScopedAbortCatcher.ctor st) = some st2 ∧
      st2.s_triggered = true ∧ st2.handlers SIGABRT = st.handlers SIGABRT ∧
      st2.handlers = st.handlers ∧
      ScopedAbortCatcher.dtor st2 = st2 ∧
      (ScopedAbortCatcher.dtor st2).s_triggered = true ∧
      (ScopedAbortCatcher.dtor st2).handlers SIGABRT = st.handlers SIGABRT := by
  have hfun : (fun s => if s = SIGABRT then st.handlers SIGABRT
      else if s = SIGABRT then sig_t.sig_handler else st.handlers s) = st.handlers := by
    funext s
    by_cases h : s = SIGABRT
    · simp [h]
    · simp [h]
  refine ⟨ScopedAbortCatcher.sig_handler SIGABRT (ScopedAbortCatcher.ctor st), ?_, ?_, ?_, ?_,
    ?_, ?_, ?_⟩
  · simp [deliver, ScopedAbortCatcher.ctor, ScopedAbortCatcher.afterSetjmp, std_signal]
  · simp [ScopedAbortCatcher.sig_handler, ScopedAbortCatcher.afterSetjmp, std_signal]
  · simp [ScopedAbortCatcher.sig_handler, ScopedAbortCatcher.ctor,
      ScopedAbortCatcher.afterSetjmp, std_signal]
  · simp [ScopedAbortCatcher.sig_handler, ScopedAbortCatcher.ctor,
      ScopedAbortCatcher.afterSetjmp, std_signal, hfun]
  · simp [ScopedAbortCatcher.dtor, ScopedAbortCatcher.sig_handler,
      ScopedAbortCatcher.afterSetjmp, std_signal]
  · simp [ScopedAbortCatcher.dtor, ScopedAbortCatcher.sig_handler,
      ScopedAbortCatcher.afterSetjmp, std_signal]
  · simp [ScopedAbortCatcher.dtor, ScopedAbortCatcher.sig_handler, ScopedAbortCatcher.ctor,
      ScopedAbortCatcher.afterSetjmp, std_signal]

/-- C8: whatever the state before construction (the flag may have been left true), with `h` the
handler then installed for `SIGABRT`: after construction the handler of `SIGABRT` is the trap
and the flag is false; after construction followed by destruction the flag is false and the
handler of `SIGABRT` (and of every signal) is `h`. -/
theorem C8_untriggered_path (st : AbortState) :
    (ScopedAbortCatcher.ctor st).handlers SIGABRT = sig_t.sig_handler ∧
    (ScopedAbortCatcher.ctor st).s_triggered = false ∧
    (ScopedAbortCatcher.dtor (ScopedAbortCatcher.ctor st)).s_triggered = false ∧
    (ScopedAbortCatcher.dtor (ScopedAbortCatcher.ctor st)).handlers SIGABRT =
      st.handlers SIGABRT ∧
    (ScopedAbortCatcher.dtor (ScopedAbortCatcher.ctor st)).handlers = st.handlers := by
  have hfun : (fun s => if s = SIGABRT then st.handlers SIGABRT
      else if s = SIGABRT then sig_t.sig_handler else st.handlers s) = st.handlers := by
    funext s
    by_cases h : s = SIGABRT
    · simp [h]
    · simp [h]
  refine ⟨?_, ?_, ?_, ?_, ?_⟩
  · simp [ScopedAbortCatcher.ctor, ScopedAbortCatcher.afterSetjmp, std_signal]
  · simp [ScopedAbortCatcher.ctor, ScopedAbortCatcher.afterSetjmp, std_signal]
  · simp [ScopedAbortCatcher.dtor, ScopedAbortCatcher.ctor, ScopedAbortCatcher.afterSetjmp,
      std_signal]
  · simp [ScopedAbortCatcher.dtor, ScopedAbortCatcher.ctor, ScopedAbortCatcher.afterSetjmp,
      std_signal]
  · simp [ScopedAbortCatcher.dtor, ScopedAbortCatcher.ctor, ScopedAbortCatcher.afterSetjmp,
      std_signal, hfun]

/-! ## CarlaSignalRestorer -/

theorem sys_sigaction_query (P : Platform) (s : Nat) (table : Nat → sigaction)
    (h1 : 1 ≤ s) (h2 : s ≤ P.nsig) :
    (sys_sigaction P s none table).ret = 0 ∧ (sys_sigaction P s none table).oldact = table s := by
  have c1 : ¬ s < 1 := by omega
  have c2 : ¬ P.nsig < s := by omega
  simp [sys_sigaction, c1, c2]

theorem sys_sigaction_query_fail (P : Platform) (s : Nat) (table : Nat → sigaction)
    (h : P.nsig < s) : (sys_sigaction P s none table).ret = -1 := by
  simp [sys_sigaction, h]

theorem sys_sigaction_set_apply (P : Platform) (s : Nat) (a : sigaction)
    (table : Nat → sigaction) (k : Nat) :
    (sys_sigaction P s (some a) table).table k =
      if k = s ∧ 1 ≤ s ∧ s ≤ P.nsig ∧ P.unchangeable s = false then a else table k := by
  unfold sys_sigaction
  by_cases c1 : s < 1
  · have : ¬ (1 ≤ s) := by omega
    simp [c1, this]
  · by_cases c2 : P.nsig < s
    · have : ¬ (s ≤ P.nsig) := by omega
      simp [c2, this]
    · cases hu : P.unchangeable s
      · have h1 : 1 ≤ s := by omega
        have h2 : s ≤ P.nsig := by omega
        simp [c1, c2, hu, h1, h2]
      · simp [hu]

theorem applyChanges_fixed (P : Platform) (cs : List (Nat × sigaction))
    (table : Nat → sigaction) (k : Nat)
    (hk : ¬ (1 ≤ k ∧ k ≤ P.nsig ∧ P.unchangeable k = false)) :
    applyChanges P cs table k = table k := by
  induction cs generalizing table with
  | nil => rfl
  | cons c cs ih =>
      rw [applyChanges, ih, sys_sigaction_set_apply]
      have : ¬ (k = c.1 ∧ 1 ≤ c.1 ∧ c.1 ≤ P.nsig ∧ P.unchangeable c.1 = false) := by
        rintro ⟨rfl, h⟩
        exact hk h
      rw [if_neg this]

theorem ctorLoop_apply (P : Platform) (table : Nat → sigaction) (r i : Nat)
    (sigs : Nat → sigaction) (k : Nat) :
    CarlaSignalRestorer.ctorLoop P table r i sigs k =
      if i ≤ k ∧ k < i + r ∧ k + 1 ≤ P.nsig then table (k + 1) else sigs k := by
  induction r generalizing i sigs with
  | zero =>
      have : ¬ (i ≤ k ∧ k < i + 0 ∧ k + 1 ≤ P.nsig) := by omega
      rw [if_neg this]
      rfl
  | succ r ih =>
      rw [CarlaSignalRestorer.ctorLoop, ih]
      by_cases hn : i + 1 ≤ P.nsig
      · obtain ⟨hret, hold⟩ := sys_sigaction_query P (i + 1) table (by omega) hn
        simp only [hret, hold, beq_self_eq_true, if_true]
        by_cases hki : k = i
        · subst hki
          have c1 : ¬ (k + 1 ≤ k ∧ k < k + 1 + r ∧ k + 1 ≤ P.nsig) := by omega
          have c2 : k ≤ k ∧ k < k + (r + 1) ∧ k + 1 ≤ P.nsig := by omega
          simp [c1, c2]
        · by_cases c1 : i + 1 ≤ k ∧ k < i + 1 + r ∧ k + 1 ≤ P.nsig
          · have c2 : i ≤ k ∧ k < i + (r + 1) ∧ k + 1 ≤ P.nsig := by omega
            simp [c1, c2]
          · have c2 : ¬ (i ≤ k ∧ k < i + (r + 1) ∧ k + 1 ≤ P.nsig) := by omega
            simp [c1, c2, hki]
      · have hret := sys_sigaction_query_fail P (i + 1) table (by omega)
        have hne : ((-1 : Int) == 0) = false := by decide
        simp only [hret, hne, Bool.false_eq_true, if_false]
        by_cases c1 : i + 1 ≤ k ∧ k < i + 1 + r ∧ k + 1 ≤ P.nsig
        · have c2 : i ≤ k ∧ k < i + (r + 1) ∧ k + 1 ≤ P.nsig := by omega
          simp [c1, c2]
        · have c2 : ¬ (i ≤ k ∧ k < i + (r + 1) ∧ k + 1 ≤ P.nsig) := by omega
          simp [c1, c2]

theorem dtorLoop_apply (P : Platform) (sigs : Nat → sigaction) (r i : Nat)
    (table : Nat → sigaction) (s : Nat) :
    CarlaSignalRestorer.dtorLoop P sigs r i table s =
      if i + 1 ≤ s ∧ s ≤ i + r ∧ s ≤ P.nsig ∧ P.unchangeable s = false then sigs (s - 1)
      else table s := by
  induction r generalizing i table with
  | zero =>
      have : ¬ (i + 1 ≤ s ∧ s ≤ i + 0 ∧ s ≤ P.nsig ∧ P.unchangeable s = false) := by omega
      rw [if_neg this]
      rfl
  | succ r ih =>
      rw [CarlaSignalRestorer.dtorLoop, ih, sys_sigaction_set_apply]
      by_cases hs : s = i + 1
      · subst hs
        have c1 : ¬ (i + 1 + 1 ≤ i + 1 ∧ i + 1 ≤ i + 1 + r ∧ i + 1 ≤ P.nsig ∧
            P.unchangeable (i + 1) = false) := by omega
        rw [if_neg c1]
        by_cases c2 : i + 1 ≤ P.nsig ∧ P.unchangeable (i + 1) = false
        · have c3 : i + 1 = i + 1 ∧ 1 ≤ i + 1 ∧ i + 1 ≤ P.nsig ∧
              P.unchangeable (i + 1) = false := ⟨rfl, by omega, c2.1, c2.2⟩
          have c4 : i + 1 ≤ i + 1 ∧ i + 1 ≤ i + (r + 1) ∧ i + 1 ≤ P.nsig ∧
              P.unchangeable (i + 1) = false := ⟨le_refl _, by omega, c2.1, c2.2⟩
          rw [if_pos c3, if_pos c4]
          simp
        · have c3 : ¬ (i + 1 = i + 1 ∧ 1 ≤ i + 1 ∧ i + 1 ≤ P.nsig ∧
              P.unchangeable (i + 1) = false) := fun h => c2 ⟨h.2.2.1, h.2.2.2⟩
          have c4 : ¬ (i + 1 ≤ i + 1 ∧ i + 1 ≤ i + (r + 1) ∧ i + 1 ≤ P.nsig ∧
              P.unchangeable (i + 1) = false) := fun h => c2 ⟨h.2.2.1, h.2.2.2⟩
          rw [if_neg c3, if_neg c4]
      · have c3 : ¬ (s = i + 1 ∧ 1 ≤ i + 1 ∧ i + 1 ≤ P.nsig ∧
            P.unchangeable (i + 1) = false) := fun h => hs h.1
        rw [if_neg c3]
        by_cases c1 : i + 1 + 1 ≤ s ∧ s ≤ i + 1 + r ∧ s ≤ P.nsig ∧ P.unchangeable s = false
        · have c2 : i + 1 ≤ s ∧ s ≤ i + (r + 1) ∧ s ≤ P.nsig ∧ P.unchangeable s = false :=
            ⟨by omega, by omega, c1.2.2.1, c1.2.2.2⟩
          rw [if_pos c1, if_pos c2]
        · have c2 : ¬ (i + 1 ≤ s ∧ s ≤ i + (r + 1) ∧ s ≤ P.nsig ∧
              P.unchangeable s = false) :=
            fun h => c1 ⟨by omega, by omega, h.2.2.1, h.2.2.2⟩
          rw [if_neg c1, if_neg c2]

/-- C9: for every platform, every initial disposition table and every sequence of disposition
changes made between construction and destruction of the guard, each signal number from 1 to 16
has after destruction the disposition it had before construction. -/
theorem C9_dispositions_restored (P : Platform) (table : Nat → sigaction)
    (changes : List (Nat × sigaction)) (s : Nat) (h1 : 1 ≤ s) (h16 : s ≤ 16) :
    CarlaSignalRestorer.dtor P (CarlaSignalRestorer.ctor P table)
      (applyChanges P changes table) s = table s := by
  unfold CarlaSignalRestorer.dtor CarlaSignalRestorer.ctor
  rw [dtorLoop_apply]
  by_cases c : s ≤ P.nsig ∧ P.unchangeable s = false
  · have c1 : 0 + 1 ≤ s ∧ s ≤ 0 + 16 ∧ s ≤ P.nsig ∧ P.unchangeable s = false :=
      ⟨by omega, by omega, c.1, c.2⟩
    have c2 : 0 ≤ s - 1 ∧ s - 1 < 0 + 16 ∧ s - 1 + 1 ≤ P.nsig := by omega
    rw [if_pos c1, ctorLoop_apply, if_pos c2]
    congr 1
    omega
  · have c1 : ¬ (0 + 1 ≤ s ∧ s ≤ 0 + 16 ∧ s ≤ P.nsig ∧ P.unchangeable s = false) :=
      fun h => c ⟨h.2.2.1, h.2.2.2⟩
    rw [if_neg c1]
    exact applyChanges_fixed P changes table s (fun h => c ⟨h.2.1, h.2.2⟩)

/-- Witness of C9: on Linux numbering, after changes to signals 6, 9 and 16, signal 6 has its
initial disposition again. -/
theorem C9_dispositions_restored_witness :
    CarlaSignalRestorer.dtor linuxPlatform (CarlaSignalRestorer.ctor linuxPlatform sampleTable)
      (applyChanges linuxPlatform [(6, ⟨1, 2, 3⟩), (9, ⟨1, 1, 1⟩), (16, ⟨7, 7, 7⟩)] sampleTable) 6 =
      sampleTable 6 :=
  C9_dispositions_restored linuxPlatform sampleTable
    [(6, ⟨1, 2, 3⟩), (9, ⟨1, 1, 1⟩), (16, ⟨7, 7, 7⟩)] 6 (by decide) (by decide)

/-! ## Drain and UI notification against the single-thread hint -/

theorem runIteration_filter_and_inSlot (b : Bool) (m : Nat) (e : CarlaEngine V) (i : Nat)
    (f : Call V → Bool) (hi : i < e.getCurrentPluginCount) :
    (runIteration b m e).filter (fun c => f c && c.inSlot i) =
      (processSlot b m (oscRegisted b e) e i).filter f := by
  rw [← List.filter_filter, runIteration_filter_inSlot, if_pos hi]

theorem idCheck_filter_work (f : Call V → Bool) (hf : ∀ c, c.isSlotWork = false → f c = false)
    (i : Nat) (p : CarlaPlugin V) : (idCheck i p).filter f = [] := by
  rw [List.filter_eq_nil_iff]
  intro c hc
  rw [hf c (idCheck_isSlotWork i p c hc)]
  exact Bool.false_ne_true

theorem processSlot_filter_work (f : Call V → Bool)
    (hf : ∀ c, c.isSlotWork = false → f c = false) (b : Bool) (m : Nat) (o : Bool)
    (e : CarlaEngine V) (i : Nat) (p : CarlaPlugin V) (hp : e.getPluginUnchecked i = some p)
    (hen : p.isEnabled = true) :
    (processSlot b m o e i).filter f =
      (gatedWork b o (needsSingleThread m p.getHints) i p).filter f := by
  have h1 : f (Call.getPluginUnchecked i) = false := hf _ rfl
  have h2 : f (Call.isEnabled i) = false := hf _ rfl
  have h3 : f (Call.getHints i) = false := hf _ rfl
  rw [processSlot_enabled _ _ _ _ _ _ hp hen]
  simp only [List.filter_cons, List.filter_append, h1, h2, h3, idCheck_filter_work f hf,
    Bool.false_eq_true, if_false, List.nil_append]

theorem flatMap_ite_filter {α β : Type} (l : List α) (q : α → Bool) (g : α → List β) :
    l.flatMap (fun a => if q a then g a else []) = (l.filter q).flatMap g := by
  induction l with
  | nil => rfl
  | cons a l ih => cases h : q a <;> simp [h, ih]

theorem parameterLoop_filter_outputs (f : Call V → Bool) (g : Nat → List (Call V))
    (b o t : Bool) (i : Nat) (p : CarlaPlugin V)
    (h : ∀ j, (parameterBody b o t i p j).filter f = if p.isParameterOutput j then g j else [])
    (n : Nat) :
    (parameterLoop b o t i p n 0).filter f =
      ((List.range n).filter p.isParameterOutput).flatMap g := by
  rw [parameterLoop_eq_flatMap, filter_flatMap_eq_flatMap_filter, ← List.range_eq_range',
    ← flatMap_ite_filter]
  exact flatMap_congr_mem _ _ _ (fun j _ => h j)

theorem isDrain_work (c : Call V) (h : c.isSlotWork = false) : c.isDrain = false := by
  cases c <;> first | rfl | exact Bool.noConfusion h

theorem isUiChange_work (c : Call V) (h : c.isSlotWork = false) : c.isUiChange = false := by
  cases c <;> first | rfl | exact Bool.noConfusion h

theorem isDrain_or_isParameterRead_work (c : Call V) (h : c.isSlotWork = false) :
    (c.isDrain || c.isParameterRead) = false := by
  cases c <;> first | rfl | exact Bool.noConfusion h

theorem isValueRead_or_isUiChange_work (c : Call V) (h : c.isSlotWork = false) :
    (c.isValueRead || c.isUiChange) = false := by
  cases c <;> first | rfl | exact Bool.noConfusion h

theorem isValueRead_or_isParameterSend_work (c : Call V) (h : c.isSlotWork = false) :
    (c.isValueRead || c.isParameterSend) = false := by
  cases c <;> first | rfl | exact Bool.noConfusion h

theorem parameterBody_drain (b o t : Bool) (i : Nat) (p : CarlaPlugin V) (j : Nat) :
    (parameterBody b o t i p j).filter Call.isDrain =
      if p.isParameterOutput j then [] else [] := by
  cases b <;> cases o <;> cases t <;> cases h : p.isParameterOutput j <;>
    simp [parameterBody, h, Call.isDrain]

theorem parameterBody_ui_clear (b o : Bool) (i : Nat) (p : CarlaPlugin V) (j : Nat) :
    (parameterBody b o false i p j).filter Call.isUiChange =
      if p.isParameterOutput j then [Call.uiParameterChange i j (p.getParameterValue j)]
      else [] := by
  cases b <;> cases o <;> cases h : p.isParameterOutput j <;>
    simp [parameterBody, h, Call.isUiChange]

theorem parameterBody_ui_set (b o : Bool) (i : Nat) (p : CarlaPlugin V) (j : Nat) :
    (parameterBody b o true i p j).filter Call.isUiChange =
      if p.isParameterOutput j then [] else [] := by
  cases b <;> cases o <;> cases h : p.isParameterOutput j <;>
    simp [parameterBody, h, Call.isUiChange]

theorem parameterBody_reads_clear (b o : Bool) (i : Nat) (p : CarlaPlugin V) (j : Nat) :
    (parameterBody b o false i p j).filter (fun c => c.isDrain || c.isParameterRead) =
      Call.isParameterOutput i j ::
        (if p.isParameterOutput j then [Call.getParameterValue i j] else []) := by
  cases b <;> cases o <;> cases h : p.isParameterOutput j <;>
    simp [parameterBody, h, Call.isDrain, Call.isParameterRead]

theorem parameterBody_value_ui (b o : Bool) (i : Nat) (p : CarlaPlugin V) (j : Nat) :
    (parameterBody b o false i p j).filter (fun c => c.isValueRead || c.isUiChange) =
      if p.isParameterOutput j then
        [Call.getParameterValue i j, Call.uiParameterChange i j (p.getParameterValue j)]
      else [] := by
  cases b <;> cases o <;> cases h : p.isParameterOutput j <;>
    simp [parameterBody, h, Call.isValueRead, Call.isUiChange]

theorem parameterBody_value_send (b : Bool) (i : Nat) (p : CarlaPlugin V) (j : Nat) :
    (parameterBody b true true i p j).filter (fun c => c.isValueRead || c.isParameterSend) =
      if p.isParameterOutput j then
        [Call.getParameterValue i j,
          if b then Call.oscSend_bridge_parameter_value i j (p.getParameterValue j)
          else Call.oscSend_control_set_parameter_value i (static_cast_int32 j)
            (p.getParameterValue j)]
      else [] := by
  cases b <;> cases h : p.isParameterOutput j <;>
    simp [parameterBody, h, Call.isValueRead, Call.isParameterSend]

theorem gatedWork_drain (b o t : Bool) (i : Nat) (p : CarlaPlugin V) :
    (gatedWork b o t i p).filter Call.isDrain =
      if t then [] else [Call.postRtEventsRun i] := by
  have hl := parameterLoop_filter_outputs Call.isDrain (fun _ => []) b o t i p
    (parameterBody_drain b o t i p) p.getParameterCount
  have hnil : ((List.range p.getParameterCount).filter p.isParameterOutput).flatMap
      (fun _ => ([] : List (Call V))) = [] := by
    rw [List.flatMap_eq_nil_iff]
    intro _ _
    rfl
  rw [hnil] at hl
  cases b <;> cases o <;> cases t <;>
    simp [gatedWork, List.filter_cons, hl, Call.isDrain]

theorem gatedWork_ui (b o t : Bool) (i : Nat) (p : CarlaPlugin V) :
    (gatedWork b o t i p).filter Call.isUiChange =
      if t then []
      else ((List.range p.getParameterCount).filter p.isParameterOutput).map
        (fun j => Call.uiParameterChange i j (p.getParameterValue j)) := by
  cases t
  · have hl := parameterLoop_filter_outputs Call.isUiChange
      (fun j => [Call.uiParameterChange i j (p.getParameterValue j)]) b o false i p
      (parameterBody_ui_clear b o i p) p.getParameterCount
    rw [← List.map_eq_flatMap] at hl
    cases b <;> cases o <;>
      simp [gatedWork, List.filter_cons, hl, Call.isUiChange]
  · have hl := parameterLoop_filter_outputs Call.isUiChange (fun _ => []) b o true i p
      (parameterBody_ui_set b o i p) p.getParameterCount
    have hnil : ((List.range p.getParameterCount).filter p.isParameterOutput).flatMap
        (fun _ => ([] : List (Call V))) = [] := by
      rw [List.flatMap_eq_nil_iff]
      intro _ _
      rfl
    rw [hnil] at hl
    cases b <;> cases o <;>
      simp [gatedWork, List.filter_cons, hl, Call.isUiChange]

theorem gatedWork_clear (b o : Bool) (i : Nat) (p : CarlaPlugin V) :
    gatedWork b o false i p =
      [Call.postRtEventsRun i, Call.getParameterCount i] ++
        parameterLoop b o false i p p.getParameterCount 0 ++
        (if !b && o then [Call.oscSend_control_set_peaks i] else []) := by
  cases b <;> cases o <;> simp [gatedWork]

theorem gatedWork_set_attached (b : Bool) (i : Nat) (p : CarlaPlugin V) :
    gatedWork b true true i p =
      [Call.getParameterCount i] ++ parameterLoop b true true i p p.getParameterCount 0 ++
        (if !b then [Call.oscSend_control_set_peaks i] else []) := by
  cases b <;> simp [gatedWork]

theorem gatedWork_reads_clear (b o : Bool) (i : Nat) (p : CarlaPlugin V) :
    (gatedWork b o false i p).filter (fun c => c.isDrain || c.isParameterRead) =
      Call.postRtEventsRun i :: Call.getParameterCount i ::
        (List.range p.getParameterCount).flatMap (fun j =>
          Call.isParameterOutput i j ::
            (if p.isParameterOutput j then [Call.getParameterValue i j] else [])) := by
  have hl : (parameterLoop b o false i p p.getParameterCount 0).filter
      (fun c => c.isDrain || c.isParameterRead) =
      (List.range p.getParameterCount).flatMap (fun j =>
          Call.isParameterOutput i j ::
            (if p.isParameterOutput j then [Call.getParameterValue i j] else [])) := by
    rw [parameterLoop_eq_flatMap, filter_flatMap_eq_flatMap_filter, ← List.range_eq_range']
    exact flatMap_congr_mem _ _ _ (fun j _ => parameterBody_reads_clear b o i p j)
  rw [gatedWork_clear, List.filter_append, List.filter_append, hl]
  cases b <;> cases o <;> simp [List.filter_cons, Call.isDrain, Call.isParameterRead]

theorem gatedWork_value_ui (b o : Bool) (i : Nat) (p : CarlaPlugin V) :
    (gatedWork b o false i p).filter (fun c => c.isValueRead || c.isUiChange) =
      ((List.range p.getParameterCount).filter p.isParameterOutput).flatMap (fun j =>
        [Call.getParameterValue i j, Call.uiParameterChange i j (p.getParameterValue j)]) := by
  have hl := parameterLoop_filter_outputs (fun c => c.isValueRead || c.isUiChange)
    (fun j => [Call.getParameterValue i j, Call.uiParameterChange i j (p.getParameterValue j)])
    b o false i p (parameterBody_value_ui b o i p) p.getParameterCount
  rw [gatedWork_clear, List.filter_append, List.filter_append, hl]
  cases b <;> cases o <;> simp [List.filter_cons, Call.isValueRead, Call.isUiChange]

theorem gatedWork_value_send (b : Bool) (i : Nat) (p : CarlaPlugin V) :
    (gatedWork b true true i p).filter (fun c => c.isValueRead || c.isParameterSend) =
      ((List.range p.getParameterCount).filter p.isParameterOutput).flatMap (fun j =>
        [Call.getParameterValue i j,
          if b then Call.oscSend_bridge_parameter_value i j (p.getParameterValue j)
          else Call.oscSend_control_set_parameter_value i (static_cast_int32 j)
            (p.getParameterValue j)]) := by
  have hl := parameterLoop_filter_outputs (fun c => c.isValueRead || c.isParameterSend)
    (fun j => [Call.getParameterValue i j,
          if b then Call.oscSend_bridge_parameter_value i j (p.getParameterValue j)
          else Call.oscSend_control_set_parameter_value i (static_cast_int32 j)
            (p.getParameterValue j)])
    b true true i p (parameterBody_value_send b i p) p.getParameterCount
  rw [gatedWork_set_attached, List.filter_append, List.filter_append, hl]
  cases b <;> simp [List.filter_cons, Call.isValueRead, Call.isParameterSend]

/-- C11: for a slot `i` below the count holding a non-null, enabled plugin, `postRtEventsRun`
and `uiParameterChange` are called exactly when the hints do not include
`PLUGIN_NEEDS_SINGLE_THREAD`. With the flag clear, `postRtEventsRun` is called once and before
every parameter read, and each output parameter `j`, in ascending order, has its value read and
then `uiParameterChange(j, v)` called once with that value, no other parameter being notified.
With the flag set neither is called, and when the channel is attached each output parameter
still has its value read and then sent to the channel. -/
theorem C11_drain_and_ui_iff_not_single_thread (BUILD_BRIDGE : Bool)
    (PLUGIN_NEEDS_SINGLE_THREAD : Nat) (fEngine : CarlaEngine V) (i : Nat)
    (plugin : CarlaPlugin V) (hi : i < fEngine.getCurrentPluginCount)
    (hp : fEngine.getPluginUnchecked i = some plugin) (hen : plugin.isEnabled = true) :
    ((runIteration BUILD_BRIDGE PLUGIN_NEEDS_SINGLE_THREAD fEngine).filter
        (fun c => c.isDrain && c.inSlot i) =
      if plugin.getHints &&& PLUGIN_NEEDS_SINGLE_THREAD = 0 then [Call.postRtEventsRun i]
      else []) ∧
    ((runIteration BUILD_BRIDGE PLUGIN_NEEDS_SINGLE_THREAD fEngine).filter
        (fun c => c.isUiChange && c.inSlot i) =
      if plugin.getHints &&& PLUGIN_NEEDS_SINGLE_THREAD = 0 then
        ((List.range plugin.getParameterCount).filter plugin.isParameterOutput).map
          (fun j => Call.uiParameterChange i j (plugin.getParameterValue j))
      else []) ∧
    (plugin.getHints &&& PLUGIN_NEEDS_SINGLE_THREAD = 0 →
      (runIteration BUILD_BRIDGE PLUGIN_NEEDS_SINGLE_THREAD fEngine).filter
          (fun c => (c.isDrain || c.isParameterRead) && c.inSlot i) =
        Call.postRtEventsRun i :: Call.getParameterCount i ::
          (List.range plugin.getParameterCount).flatMap (fun j =>
            Call.isParameterOutput i j ::
              (if plugin.isParameterOutput j then [Call.getParameterValue i j] else [])) ∧
      (runIteration BUILD_BRIDGE PLUGIN_NEEDS_SINGLE_THREAD fEngine).filter
          (fun c => (c.isValueRead || c.isUiChange) && c.inSlot i) =
        ((List.range plugin.getParameterCount).filter plugin.isParameterOutput).flatMap
          (fun j => [Call.getParameterValue i j,
            Call.uiParameterChange i j (plugin.getParameterValue j)])) ∧
    (plugin.getHints &&& PLUGIN_NEEDS_SINGLE_THREAD ≠ 0 →
      oscRegisted BUILD_BRIDGE fEngine = true →
      (runIteration BUILD_BRIDGE PLUGIN_NEEDS_SINGLE_THREAD fEngine).filter
          (fun c => (c.isValueRead || c.isParameterSend) && c.inSlot i) =
        ((List.range plugin.getParameterCount).filter plugin.isParameterOutput).flatMap
          (fun j => [Call.getParameterValue i j,
            if BUILD_BRIDGE then
              Call.oscSend_bridge_parameter_value i j (plugin.getParameterValue j)
            else
              Call.oscSend_control_set_parameter_value i (static_cast_int32 j)
                (plugin.getParameterValue j)])) := by
  refine ⟨?_, ?_, ?_, ?_⟩
  · rw [runIteration_filter_and_inSlot _ _ _ _ Call.isDrain hi,
      processSlot_filter_work Call.isDrain isDrain_work _ _ _ _ _ _ hp hen, gatedWork_drain]
    by_cases h : plugin.getHints &&& PLUGIN_NEEDS_SINGLE_THREAD = 0 <;>
      simp [needsSingleThread, h]
  · rw [runIteration_filter_and_inSlot _ _ _ _ Call.isUiChange hi,
      processSlot_filter_work Call.isUiChange isUiChange_work _ _ _ _ _ _ hp hen, gatedWork_ui]
    by_cases h : plugin.getHints &&& PLUGIN_NEEDS_SINGLE_THREAD = 0 <;>
      simp [needsSingleThread, h]
  · intro h
    have hn : needsSingleThread PLUGIN_NEEDS_SINGLE_THREAD plugin.getHints = false := by
      simp [needsSingleThread, h]
    constructor
    · rw [runIteration_filter_and_inSlot _ _ _ _ (fun c => c.isDrain || c.isParameterRead) hi,
        processSlot_filter_work _ isDrain_or_isParameterRead_work _ _ _ _ _ _ hp hen, hn,
        gatedWork_reads_clear]
    · rw [runIteration_filter_and_inSlot _ _ _ _ (fun c => c.isValueRead || c.isUiChange) hi,
        processSlot_filter_work _ isValueRead_or_isUiChange_work _ _ _ _ _ _ hp hen, hn,
        gatedWork_value_ui]
  · intro h hosc
    have hn : needsSingleThread PLUGIN_NEEDS_SINGLE_THREAD plugin.getHints = true := by
      simp [needsSingleThread, h]
    rw [runIteration_filter_and_inSlot _ _ _ _ (fun c => c.isValueRead || c.isParameterSend) hi,
      processSlot_filter_work _ isValueRead_or_isParameterSend_work _ _ _ _ _ _ hp hen, hn, hosc,
      gatedWork_value_send]

/-- Witness of C11: slot 0 of the end-to-end scenario (flag clear) has its value read and the
UI notified; slot 0 of `singleThreadAttachedEngine` (flag `0x100` set, channel attached) has its
value read and sent to the channel. -/
theorem C11_drain_and_ui_iff_not_single_thread_witness :
    (runIteration false 256 scenarioEngine).filter
        (fun c => (c.isValueRead || c.isUiChange) && c.inSlot 0) =
      ((List.range (scenarioPlugin 0 true 0.5).getParameterCount).filter
          (scenarioPlugin 0 true 0.5).isParameterOutput).flatMap
        (fun j => [Call.getParameterValue 0 j,
          Call.uiParameterChange 0 j ((scenarioPlugin 0 true 0.5).getParameterValue j)]) ∧
    (runIteration false 256 singleThreadAttachedEngine).filter
        (fun c => (c.isValueRead || c.isParameterSend) && c.inSlot 0) =
      ((List.range singleThreadPlugin.getParameterCount).filter
          singleThreadPlugin.isParameterOutput).flatMap
        (fun j => [Call.getParameterValue 0 j,
          if false then
            Call.oscSend_bridge_parameter_value 0 j (singleThreadPlugin.getParameterValue j)
          else
            Call.oscSend_control_set_parameter_value 0 (static_cast_int32 j)
              (singleThreadPlugin.getParameterValue j)]) :=
  ⟨((C11_drain_and_ui_iff_not_single_thread false 256 scenarioEngine 0
      (scenarioPlugin 0 true 0.5) (by decide) rfl rfl).2.2.1 (by decide)).2,
    (C11_drain_and_ui_iff_not_single_thread false 256 singleThreadAttachedEngine 0
      singleThreadPlugin (by decide) rfl rfl).2.2.2 (by decide) rfl⟩

end Carla
